import Mathlib

/-!
Shallow embedding of the backbay-sdk agent workflow core
(`cyntra.agents`: graphs, tools, in-memory repositories, schemas),
with theorems checking the natural-language specification's claims.

Modelling conventions:
* Python `datetime` values are minutes since the proleptic origin
  (day ordinal * 1440 + minute of day); `date` values are day ordinals,
  so `date.weekday()` is `(d + 6) % 7` (ordinal 1 is a Monday).
* Python dict values are the inductive `PyVal`; an ISO-formatted
  datetime string is represented by the `PyVal.dtstr` constructor
  carrying its parsed value (`isoformat` is injective and
  `fromisoformat` is its left inverse).
* `uuid4` generation is determinised by a counter threaded through the
  repository state (`new_id n`); only freshness matters to the code.
* Raising Python code is `Except PyErr`; `float` arithmetic is `ℚ`.
-/

/-- Python `date`: the proleptic day ordinal (`date.toordinal`). -/
abbrev PyDate := Nat

/-- Python `datetime`: minutes since the proleptic origin. -/
abbrev PyDateTime := Nat

/-- `date.weekday()`: Monday = 0; ordinal 1 (0001-01-01) is a Monday. -/
def pyWeekday (d : PyDate) : Nat := (d + 6) % 7

/-- `datetime.combine(d, time(hour=h))`. -/
def dtCombine (d : PyDate) (hour : Nat) : PyDateTime := d * 1440 + hour * 60

/-- `datetime.date()`. -/
def dtDate (t : PyDateTime) : PyDate := t / 1440

/-- `datetime.min` sentinel used by the in-memory sorts. -/
def dtMin : PyDateTime := 0

/-- `datetime.max` (9999-12-31 23:59) as minutes. -/
def dtMax : PyDateTime := 3652059 * 1440 + 1439

/-- Python values stored in the untyped dicts threaded by the graphs. -/
inductive PyVal where
  | none : PyVal
  | bool : Bool → PyVal
  | int : Int → PyVal
  | str : String → PyVal
  | dtstr : PyDateTime → PyVal
  | list : List PyVal → PyVal
  | dict : List (String × PyVal) → PyVal

/-- `uuid.uuid4()` determinised by a freshness counter. -/
def new_id (n : Nat) : String := "uuid-" ++ toString n

/-- `EpisodeKind` (`schemas/core.py`). -/
inductive EpisodeKind where
  | session | day | mission | meta
deriving DecidableEq

/-- `.value` of an `EpisodeKind` member. -/
def EpisodeKind.val : EpisodeKind → String
  | .session => "session"
  | .day => "day"
  | .mission => "mission"
  | .meta => "meta"

/-- `EpisodeKind(s)`: the enum constructor, `none` when the call raises. -/
def EpisodeKind.ofString? (s : String) : Option EpisodeKind :=
  if s = "session" then some .session
  else if s = "day" then some .day
  else if s = "mission" then some .mission
  else if s = "meta" then some .meta
  else none

/-- `ReflectPeriodKind` (`schemas/api.py`). -/
inductive ReflectPeriodKind where
  | block | day | week | mission
deriving DecidableEq

/-- `.value` of a `ReflectPeriodKind` member. -/
def ReflectPeriodKind.val : ReflectPeriodKind → String
  | .block => "block"
  | .day => "day"
  | .week => "week"
  | .mission => "mission"

/-- `ReflectPeriodKind(s)`, `none` when the enum call raises. -/
def ReflectPeriodKind.ofString? (s : String) : Option ReflectPeriodKind :=
  if s = "block" then some .block
  else if s = "day" then some .day
  else if s = "week" then some .week
  else if s = "mission" then some .mission
  else none

/-- `MissionKind` (`schemas/core.py`). -/
inductive MissionKind where
  | exam | project | habit | life_admin | other
deriving DecidableEq

/-- `.value` of a `MissionKind` member. -/
def MissionKind.val : MissionKind → String
  | .exam => "exam"
  | .project => "project"
  | .habit => "habit"
  | .life_admin => "life_admin"
  | .other => "other"

/-- `MissionKind(s)` / the pydantic coercion, `none` when it raises. -/
def MissionKind.ofString? (s : String) : Option MissionKind :=
  if s = "exam" then some .exam
  else if s = "project" then some .project
  else if s = "habit" then some .habit
  else if s = "life_admin" then some .life_admin
  else if s = "other" then some .other
  else none

/-- `MissionStatus` (`schemas/core.py`). -/
inductive MissionStatus where
  | draft | active | paused | completed | abandoned
deriving DecidableEq

/-- `MissionPriority` (`schemas/core.py`). -/
inductive MissionPriority where
  | low | medium | high | critical
deriving DecidableEq

/-- `BlockStatus` (`schemas/core.py`). -/
inductive BlockStatus where
  | planned | in_progress | completed | cancelled | skipped
deriving DecidableEq

/-- `.value` of a `BlockStatus` member. -/
def BlockStatus.val : BlockStatus → String
  | .planned => "planned"
  | .in_progress => "in_progress"
  | .completed => "completed"
  | .cancelled => "cancelled"
  | .skipped => "skipped"

/-- `EmotionLabel` (`schemas/core.py`). -/
inductive EmotionLabel where
  | very_low | low | neutral | high | very_high
deriving DecidableEq

/-- `EnergyLevel` (`schemas/api.py`). -/
inductive EnergyLevel where
  | very_low | low | medium | high | very_high
deriving DecidableEq

/-- `.value` of an `EnergyLevel` member. -/
def EnergyLevel.val : EnergyLevel → String
  | .very_low => "very_low"
  | .low => "low"
  | .medium => "medium"
  | .high => "high"
  | .very_high => "very_high"

/-- `SurfaceType` (`commons/core/types.py`). -/
inductive SurfaceType where
  | focus_dock | outora_library | sideglyph | mobile | other
deriving DecidableEq

/-- `.value` of a `SurfaceType` member. -/
def SurfaceType.val : SurfaceType → String
  | .focus_dock => "focus_dock"
  | .outora_library => "outora_library"
  | .sideglyph => "sideglyph"
  | .mobile => "mobile"
  | .other => "other"

/-- `MissionConstraints` (`schemas/core.py`). -/
structure MissionConstraints where
  max_daily_minutes : Option Int := Option.none
  no_nights_after : Option Int := Option.none
  days_off : List Nat := []
deriving DecidableEq

/-- `MissionPreferences` (`schemas/core.py`). -/
structure MissionPreferences where
  preferred_block_lengths : Option (List Int) := Option.none
  intensity : Option String := Option.none
  notes_for_glyph : Option String := Option.none
deriving DecidableEq

/-- `GraphNodeRef` (`schemas/core.py`). -/
structure GraphNodeRef where
  graph_id : String
  node_id : String
  weight : ℚ := 1
deriving DecidableEq

/-- `Mission` (`schemas/core.py`). -/
structure Mission where
  id : String
  user_id : String
  title : String
  description : Option String := Option.none
  kind : MissionKind := .other
  status : MissionStatus := .active
  priority : MissionPriority := .medium
  created_at : PyDateTime
  updated_at : PyDateTime
  planned_start_date : Option PyDate := Option.none
  deadline_date : Option PyDate := Option.none
  estimated_total_minutes : Option Int := Option.none
  tags : List String := []
  graph_links : List GraphNodeRef := []
  constraints : MissionConstraints := {}
  preferences : MissionPreferences := {}
  archived : Bool := false
deriving DecidableEq

/-- `Block` (`schemas/core.py`). -/
structure Block where
  id : String
  user_id : String
  mission_id : String
  sequence_index : Option Int := Option.none
  scheduled_start : Option PyDateTime := Option.none
  scheduled_end : Option PyDateTime := Option.none
  planned_duration_minutes : Option Int := Option.none
  actual_start : Option PyDateTime := Option.none
  actual_end : Option PyDateTime := Option.none
  status : BlockStatus := .planned
  title : Option String := Option.none
  plan_note : Option String := Option.none
  outcome_note : Option String := Option.none
  completion_ratio : Option ℚ := Option.none
  location_hint : Option String := Option.none
  device_hint : Option String := Option.none
deriving DecidableEq

/-- `LeakCategory` (`schemas/core.py`), kept as its `.value` string. -/
abbrev LeakCategory := String

/-- `LeakEvent` (`schemas/core.py`). -/
structure LeakEvent where
  timestamp : PyDateTime
  category : LeakCategory
  source : String
  duration_seconds : Option Int := Option.none
  note : Option String := Option.none
deriving DecidableEq

/-- `Episode` (`schemas/core.py`). -/
structure Episode where
  id : String
  user_id : String
  kind : EpisodeKind
  created_at : PyDateTime
  mission_id : Option String := Option.none
  block_id : Option String := Option.none
  title : Option String := Option.none
  summary : String
  reflection : Option String := Option.none
  mood_before : Option EmotionLabel := Option.none
  mood_after : Option EmotionLabel := Option.none
  focus_score : Option Int := Option.none
  energy_score : Option Int := Option.none
  time_focused_minutes : Option Int := Option.none
  time_leaked_minutes : Option Int := Option.none
  leaks : List LeakEvent := []
  tags : List String := []
  meta : List (String × PyVal) := []

/-- `NudgeLevel` (`schemas/core.py`). -/
inductive NudgeLevel where
  | off | soft | normal | aggressive
deriving DecidableEq

/-- `UserPreferences` (`schemas/core.py`). -/
structure UserPreferences where
  timezone : String := "UTC"
  preferred_block_lengths : List Int := [25, 40]
  typical_wake_hour : Option Int := Option.none
  typical_sleep_hour : Option Int := Option.none
  nudge_level : NudgeLevel := .normal
  sideglyph_enabled : Bool := true
  browser_tracking_enabled : Bool := true
deriving DecidableEq

/-- `UserStats` (`schemas/core.py`). -/
structure UserStats where
  total_missions_created : Int := 0
  total_blocks_completed : Int := 0
  total_focused_minutes : Int := 0
  avg_block_length_successful : Option Int := Option.none
  avg_start_hour_successful : Option ℚ := Option.none
  night_sessions_failure_rate : Option ℚ := Option.none
  morning_sessions_success_rate : Option ℚ := Option.none
deriving DecidableEq

/-- `UserProfile` (`schemas/core.py`). -/
structure UserProfile where
  user_id : String
  created_at : PyDateTime
  updated_at : PyDateTime
  display_name : Option String := Option.none
  preferences : UserPreferences := {}
  stats : UserStats := {}
  persona_notes : Option String := Option.none
deriving DecidableEq

/-! ## Shared workflow state (`graphs/base.py`) -/

/-- `GlyphMode` (`graphs/base.py`). -/
inductive GlyphMode where
  | planner | coach | archivist | chat
deriving DecidableEq

/-- `.value` of a `GlyphMode` member. -/
def GlyphMode.val : GlyphMode → String
  | .planner => "planner"
  | .coach => "coach"
  | .archivist => "archivist"
  | .chat => "chat"

/-- `GlyphMode(s)`, `none` when the enum call raises. -/
def GlyphMode.ofString? (s : String) : Option GlyphMode :=
  if s = "planner" then some .planner
  else if s = "coach" then some .coach
  else if s = "archivist" then some .archivist
  else if s = "chat" then some .chat
  else none

/-- `GlyphContext` (`graphs/base.py`). -/
structure GlyphContext where
  user_id : String
  session_id : Option String := Option.none
  mission_id : Option String := Option.none
  block_id : Option String := Option.none
  surface : String := "api"
  user_name : Option String := Option.none
  timezone : String := "UTC"
  graph_id : Option String := Option.none
  focus_node_ids : List String := []

/-- `GlyphState` (`graphs/base.py`). Messages are raw dict values. -/
structure GlyphState where
  context : GlyphContext
  mode : GlyphMode := .chat
  messages : List PyVal := []
  scratchpad : String := ""
  outputs : List (String × PyVal) := []
  errors : List String := []
  started_at : PyDateTime
  updated_at : PyDateTime

/-- `dict.get(k)`: first-match lookup in the association-list dict. -/
def pyGet (d : List (String × PyVal)) (k : String) : Option PyVal :=
  (d.find? (fun p => p.1 = k)).map (fun p => p.2)

/-- Encode an optional string as a dict value (`None` or `str`). -/
def optStrVal : Option String → PyVal
  | Option.none => .none
  | some s => .str s

/-- `state_to_dict` (`graphs/base.py`). -/
def state_to_dict (state : GlyphState) : List (String × PyVal) :=
  [ ("context", .dict
      [ ("user_id", .str state.context.user_id)
      , ("session_id", optStrVal state.context.session_id)
      , ("mission_id", optStrVal state.context.mission_id)
      , ("block_id", optStrVal state.context.block_id)
      , ("surface", .str state.context.surface)
      , ("user_name", optStrVal state.context.user_name)
      , ("timezone", .str state.context.timezone)
      , ("graph_id", optStrVal state.context.graph_id)
      , ("focus_node_ids", .list (state.context.focus_node_ids.map PyVal.str))
      ])
  , ("mode", .str state.mode.val)
  , ("messages", .list state.messages)
  , ("scratchpad", .str state.scratchpad)
  , ("outputs", .dict state.outputs)
  , ("errors", .list (state.errors.map PyVal.str))
  , ("started_at", .dtstr state.started_at)
  , ("updated_at", .dtstr state.updated_at)
  ]

/-- A list value all of whose elements are strings; `none` otherwise
(a non-string element would make the typed field unrepresentable). -/
def decodeStrList : List PyVal → Option (List String)
  | [] => some []
  | .str s :: rest => (decodeStrList rest).map (fun l => s :: l)
  | _ => Option.none

/-- Decode an optional dict value expected to be a `str`. -/
def asStrD (r : Option PyVal) (dflt : String) : Option String :=
  match r with
  | Option.none => some dflt
  | some (.str s) => some s
  | some _ => Option.none

/-- Decode an optional dict value expected to be `None` or a `str`. -/
def asOptStr (r : Option PyVal) : Option (Option String) :=
  match r with
  | Option.none => some Option.none
  | some .none => some Option.none
  | some (.str s) => some (some s)
  | some _ => Option.none

/-- Decode an optional dict value expected to be a `list`. -/
def asListD (r : Option PyVal) : Option (List PyVal) :=
  match r with
  | Option.none => some []
  | some (.list l) => some l
  | some _ => Option.none

/-- Decode an optional dict value expected to be a `dict`. -/
def asDictD (r : Option PyVal) : Option (List (String × PyVal)) :=
  match r with
  | Option.none => some []
  | some (.dict x) => some x
  | some _ => Option.none

/-- Decode an optional dict value expected to be a `list` of `str`. -/
def asStrListD (r : Option PyVal) : Option (List String) :=
  match r with
  | Option.none => some []
  | some (.list l) => decodeStrList l
  | some _ => Option.none

/-- Decode `datetime.fromisoformat(data[k]) if k in data else now()`;
`none` when parsing (or the non-`str` argument) raises. -/
def asDtD (r : Option PyVal) (now : PyDateTime) : Option PyDateTime :=
  match r with
  | Option.none => some now
  | some (.dtstr t) => some t
  | some _ => Option.none

/-- `d.get(k, default)` expected to be a `str`. -/
def getStrD (d : List (String × PyVal)) (k dflt : String) : Option String :=
  asStrD (pyGet d k) dflt

/-- `d.get(k)` expected to be `None` or a `str`. -/
def getOptStr (d : List (String × PyVal)) (k : String) :
    Option (Option String) :=
  asOptStr (pyGet d k)

/-- `d.get(k, [])` expected to be a `list`. -/
def getListD (d : List (String × PyVal)) (k : String) : Option (List PyVal) :=
  asListD (pyGet d k)

/-- `d.get(k, {})` expected to be a `dict`. -/
def getDictD (d : List (String × PyVal)) (k : String) :
    Option (List (String × PyVal)) :=
  asDictD (pyGet d k)

/-- `d.get(k, [])` expected to be a `list` of `str`. -/
def getStrListD (d : List (String × PyVal)) (k : String) :
    Option (List String) :=
  asStrListD (pyGet d k)

/-- `datetime.fromisoformat(data[k]) if k in data else datetime.now()`. -/
def getDtD (d : List (String × PyVal)) (k : String) (now : PyDateTime) :
    Option PyDateTime :=
  asDtD (pyGet d k) now

/-- The `GlyphContext(ctx_data.get(...), ...)` part of `dict_to_state`. -/
def decodeContext (ctx_data : List (String × PyVal)) : Option GlyphContext :=
  (getStrD ctx_data "user_id" "").bind fun uid =>
  (getOptStr ctx_data "session_id").bind fun sid =>
  (getOptStr ctx_data "mission_id").bind fun mid =>
  (getOptStr ctx_data "block_id").bind fun bid =>
  (getStrD ctx_data "surface" "api").bind fun surf =>
  (getOptStr ctx_data "user_name").bind fun uname =>
  (getStrD ctx_data "timezone" "UTC").bind fun tz =>
  (getOptStr ctx_data "graph_id").bind fun gid =>
  (getStrListD ctx_data "focus_node_ids").map fun fni =>
    { user_id := uid, session_id := sid, mission_id := mid
    , block_id := bid, surface := surf, user_name := uname
    , timezone := tz, graph_id := gid, focus_node_ids := fni }

/-- `dict_to_state` (`graphs/base.py`). `now` stands for the
`datetime.now()` defaults; `none` models a raising conversion. -/
def dict_to_state (now : PyDateTime) (data : List (String × PyVal)) :
    Option GlyphState :=
  (getDictD data "context").bind fun ctx_data =>
  (decodeContext ctx_data).bind fun context =>
  (getStrD data "mode" "chat").bind fun modeStr =>
  (GlyphMode.ofString? modeStr).bind fun mode =>
  (getListD data "messages").bind fun messages =>
  (getStrD data "scratchpad" "").bind fun pad =>
  (getDictD data "outputs").bind fun outs =>
  (getStrListD data "errors").bind fun errs =>
  (getDtD data "started_at" now).bind fun t1 =>
  (getDtD data "updated_at" now).map fun t2 =>
    { context := context
    , mode := mode, messages := messages, scratchpad := pad
    , outputs := outs, errors := errs
    , started_at := t1, updated_at := t2 }

/-- The top-level keys `dict_to_state` reads. -/
def stateDictKeys : List String :=
  ["context", "mode", "messages", "scratchpad", "outputs", "errors",
   "started_at", "updated_at"]

/-! ## In-memory repositories (`memory/in_memory.py`) -/

/-- Ambient clock for `datetime.now()` / `now_utc()` / `date.today()`. -/
structure PEnv where
  now : PyDateTime

/-- `date.today()`. -/
def PEnv.today (env : PEnv) : PyDate := dtDate env.now

/-- `InMemorySemanticMemory`'s stores (pattern summaries omitted:
no graph reads them). -/
structure SemanticState where
  episodes : List Episode := []
  missions : List Mission := []

/-- The repository bundle's backing store plus the uuid counter.
`semantic = none` models an absent semantic-memory backend. -/
structure RepoState where
  missions : List Mission := []
  blocks : List Block := []
  episodes : List Episode := []
  profiles : List UserProfile := []
  semantic : Option SemanticState := Option.none
  nextId : Nat := 0

/-- `store[key(a)] = a` on a dict kept as an insertion-ordered list:
replace in place when the key exists, else append. -/
def upsertBy (key : α → String) (a : α) (l : List α) : List α :=
  if l.any (fun x => key x = key a) then
    l.map (fun x => if key x = key a then a else x)
  else l ++ [a]

/-- Python `max(l, key=k)`: the first element attaining the maximum;
`none` on an empty list (where Python raises). -/
def pyMaxBy (k : α → Nat) (l : List α) : Option α :=
  l.foldl
    (fun acc x =>
      match acc with
      | Option.none => some x
      | some b => if k x > k b then some x else some b)
    Option.none

/-- Python `min(l, key=k)`: the first element attaining the minimum. -/
def pyMinBy (k : α → Nat) (l : List α) : Option α :=
  l.foldl
    (fun acc x =>
      match acc with
      | Option.none => some x
      | some b => if k x < k b then some x else some b)
    Option.none

/-- `InMemoryMissionsRepository.get`. -/
def missionsGet (st : RepoState) (mission_id : String) : Option Mission :=
  st.missions.find? (fun m => m.id = mission_id)

/-- `InMemoryMissionsRepository.create`. -/
def missionsCreate (st : RepoState) (m : Mission) : RepoState :=
  { st with missions := upsertBy (fun x => x.id) m st.missions }

/-- `InMemoryMissionsRepository.update`; raises when the id is absent. -/
def missionsUpdate (st : RepoState) (m : Mission) : Except String RepoState :=
  if st.missions.any (fun x => x.id = m.id) then
    .ok { st with missions := upsertBy (fun x => x.id) m st.missions }
  else .error ("Mission " ++ m.id ++ " not found")

/-- `InMemoryMissionsRepository.get_active_mission`: most recently
updated among the user's `active` missions. -/
def get_active_mission (st : RepoState) (user_id : String) : Option Mission :=
  pyMaxBy (fun m => m.updated_at)
    (st.missions.filter
      (fun m => m.user_id = user_id ∧ m.status = MissionStatus.active))

/-- `sequence_index or 0` half of the `list_for_mission` sort key. -/
def blockSeqKey (b : Block) : Int := (b.sequence_index.getD 0)

/-- `scheduled_start or datetime.max` half of the sort key. -/
def blockSchedKey (b : Block) : Nat := b.scheduled_start.getD dtMax

/-- Lexicographic `(sequence_index or 0, scheduled_start or max)` order. -/
def blockKeyLe (a b : Block) : Prop :=
  blockSeqKey a < blockSeqKey b ∨
    (blockSeqKey a = blockSeqKey b ∧ blockSchedKey a ≤ blockSchedKey b)

instance : DecidableRel blockKeyLe := fun a b => by
  unfold blockKeyLe; exact inferInstance

/-- `InMemoryBlocksRepository.get`. -/
def blocksGet (st : RepoState) (block_id : String) : Option Block :=
  st.blocks.find? (fun b => b.id = block_id)

/-- `InMemoryBlocksRepository.create`. -/
def blocksCreate (st : RepoState) (b : Block) : RepoState :=
  { st with blocks := upsertBy (fun x => x.id) b st.blocks }

/-- `InMemoryBlocksRepository.update`; raises when the id is absent. -/
def blocksUpdate (st : RepoState) (b : Block) : Except String RepoState :=
  if st.blocks.any (fun x => x.id = b.id) then
    .ok { st with blocks := upsertBy (fun x => x.id) b st.blocks }
  else .error ("Block " ++ b.id ++ " not found")

/-- `InMemoryBlocksRepository.list_for_mission` (stable sort by
`(sequence_index or 0, scheduled_start or max)`, then `[:limit]`). -/
def blocksListForMission (st : RepoState) (mission_id : String)
    (status : Option BlockStatus) (limit : Nat := 100) : List Block :=
  ((st.blocks.filter
      (fun b => b.mission_id = mission_id ∧
        (status = Option.none ∨ status = some b.status))).insertionSort
    blockKeyLe).take limit

/-- `InMemoryBlocksRepository.list_for_user_date`. -/
def blocksListForUserDate (st : RepoState) (user_id : String)
    (target_date : PyDate) : List Block :=
  (st.blocks.filter
      (fun b => b.user_id = user_id ∧ b.scheduled_start ≠ Option.none ∧
        dtDate (b.scheduled_start.getD 0) = target_date)).insertionSort
    (fun a b => blockSchedKey a ≤ blockSchedKey b)

/-- `InMemoryBlocksRepository.get_current_block`: the in-progress block
that started most recently (`actual_start or datetime.min`). -/
def get_current_block (st : RepoState) (user_id : String) : Option Block :=
  pyMaxBy (fun b => b.actual_start.getD dtMin)
    (st.blocks.filter
      (fun b => b.user_id = user_id ∧ b.status = BlockStatus.in_progress))

/-- `InMemoryEpisodesRepository.create`. -/
def episodesCreate (st : RepoState) (e : Episode) : RepoState :=
  { st with episodes := upsertBy (fun x => x.id) e st.episodes }

/-- `InMemoryEpisodesRepository.list_for_user` (filters, stable sort by
`created_at` descending, then `[:limit]`). -/
def episodesListForUser (st : RepoState) (user_id : String)
    (kind : Option EpisodeKind := Option.none)
    (mission_id : Option String := Option.none)
    (start_date : Option PyDate := Option.none)
    (end_date : Option PyDate := Option.none)
    (limit : Nat := 50) : List Episode :=
  let l0 := st.episodes.filter (fun e => e.user_id = user_id)
  let l1 := match kind with
    | Option.none => l0
    | some k => l0.filter (fun e => e.kind = k)
  let l2 := match mission_id with
    | Option.none => l1
    | some m => l1.filter (fun e => e.mission_id = some m)
  let l3 := match start_date with
    | Option.none => l2
    | some d => l2.filter (fun e => d ≤ dtDate e.created_at)
  let l4 := match end_date with
    | Option.none => l3
    | some d => l3.filter (fun e => dtDate e.created_at ≤ d)
  (l4.insertionSort (fun a b => b.created_at ≤ a.created_at)).take limit

/-- `InMemoryUserProfileRepository.get_or_create`. -/
def profilesGetOrCreate (env : PEnv) (st : RepoState) (user_id : String) :
    UserProfile × RepoState :=
  match st.profiles.find? (fun p => p.user_id = user_id) with
  | some p => (p, st)
  | Option.none =>
    let p : UserProfile :=
      { user_id := user_id, created_at := env.now, updated_at := env.now }
    (p, { st with profiles := upsertBy (fun x => x.user_id) p st.profiles })

/-- `InMemoryUserProfileRepository.update` (no existence check). -/
def profilesUpdate (st : RepoState) (p : UserProfile) : RepoState :=
  { st with profiles := upsertBy (fun x => x.user_id) p st.profiles }

/-- `str.lower().split()` (whitespace split, empties dropped). -/
def pyWords (s : String) : List String :=
  (s.toLower.split (fun c => c.isWhitespace)).filter (fun w => w ≠ "")

/-- `len(set(a) & set(b))`. -/
def wordOverlap (a b : List String) : Nat :=
  (a.eraseDups.filter (fun w => w ∈ b)).length

/-- `InMemorySemanticMemory.search_similar_missions`: keyword-overlap
scores, stable sort descending, `[:limit]`. -/
def semanticSearchMissions (sem : SemanticState) (user_id query : String)
    (limit : Nat := 5) : List Mission :=
  let user_missions := sem.missions.filter (fun m => m.user_id = user_id)
  let scored := user_missions.filterMap (fun m =>
    let text := pyWords (m.title ++ " " ++ m.description.getD "")
    let overlap := wordOverlap (pyWords query) text
    if overlap > 0 then some (overlap, m) else Option.none)
  ((scored.insertionSort (fun a b => b.1 ≤ a.1)).take limit).map
    (fun p => p.2)

/-- `SemanticMemory.add_mission` when a backend is configured. -/
def semanticAddMission (st : RepoState) (m : Mission) : RepoState :=
  match st.semantic with
  | Option.none => st
  | some sem =>
    let sem2 := { sem with missions := upsertBy (fun x => x.id) m sem.missions }
    { st with semantic := some sem2 }

/-- `SemanticMemory.add_episode` when a backend is configured. -/
def semanticAddEpisode (st : RepoState) (e : Episode) : RepoState :=
  match st.semantic with
  | Option.none => st
  | some sem =>
    let sem2 := { sem with episodes := upsertBy (fun x => x.id) e sem.episodes }
    { st with semantic := some sem2 }

/-! ## Domain tools (`tools/mission.py`, `tools/timeline.py`,
`tools/memory.py`) -/

/-- Python exceptions escaping the embedded code. -/
inductive PyErr where
  | valueError (message : String)
  | validationError (message : String)
  | serviceError (code message : String)
deriving DecidableEq

/-- `MissionTools.create_mission`. -/
def create_mission (env : PEnv) (st : RepoState) (user_id title : String)
    (description : Option String := Option.none)
    (kind : MissionKind := .other)
    (priority : MissionPriority := .medium)
    (deadline_date : Option PyDateTime := Option.none)
    (planned_start_date : Option PyDateTime := Option.none)
    (estimated_total_minutes : Option Int := Option.none)
    (constraints : Option MissionConstraints := Option.none)
    (preferences : Option MissionPreferences := Option.none)
    (tags : Option (List String) := Option.none) : Mission × RepoState :=
  let mission : Mission :=
    { id := new_id st.nextId
    , user_id := user_id, title := title, description := description
    , kind := kind, status := .active, priority := priority
    , created_at := env.now, updated_at := env.now
    , planned_start_date := planned_start_date.map dtDate
    , deadline_date := deadline_date.map dtDate
    , estimated_total_minutes := estimated_total_minutes
    , constraints := constraints.getD {}
    , preferences := preferences.getD {}
    , tags := tags.getD [] }
  let st1 := missionsCreate { st with nextId := st.nextId + 1 } mission
  (mission, semanticAddMission st1 mission)

/-- `MissionTools.get_mission`. -/
def get_mission (st : RepoState) (mission_id : String) : Option Mission :=
  missionsGet st mission_id

/-- `MissionTools.find_similar_missions` (empty without a backend). -/
def find_similar_missions (st : RepoState) (user_id query : String)
    (limit : Nat := 5) : List Mission :=
  match st.semantic with
  | Option.none => []
  | some sem => semanticSearchMissions sem user_id query limit

/-- One iteration of the `propose_blocks_for_mission` loop: skip the
candidate day when days-off are configured and hit, else append the
block for it. -/
def propose_step (mission : Mission) (mission_id : String)
    (duration : Int) (start : PyDate) (acc : List Block × Nat)
    (i : Nat) : List Block × Nat :=
  let block_date := start + i
  if mission.constraints.days_off ≠ [] ∧
      pyWeekday block_date ∈ mission.constraints.days_off then acc
  else
    let block : Block :=
      { id := new_id acc.2
      , user_id := mission.user_id, mission_id := mission_id
      , sequence_index := some (acc.1.length : Int)
      , scheduled_start := some (dtCombine block_date 9)
      , planned_duration_minutes := some duration
      , status := .planned
      , title := some (mission.title ++ " - Session " ++
          toString (acc.1.length + 1)) }
    (acc.1 ++ [block], acc.2 + 1)

/-- `TimelineTools.propose_blocks_for_mission`. Returns the unsaved
blocks plus the repository state with the uuid counter advanced. -/
def propose_blocks_for_mission (env : PEnv) (st : RepoState)
    (mission_id : String) (start_date : Option PyDate := Option.none)
    (num_blocks : Nat := 5) (default_duration_minutes : Int := 25) :
    List Block × RepoState :=
  match missionsGet st mission_id with
  | Option.none => ([], st)
  | some mission =>
    let start := start_date.getD env.today
    let duration :=
      match mission.preferences.preferred_block_lengths with
      | some (d :: _) => d
      | _ => default_duration_minutes
    let res := (List.range num_blocks).foldl
      (propose_step mission mission_id duration start) ([], st.nextId)
    (res.1, { st with nextId := res.2 })

/-- `TimelineTools.create_block`. -/
def create_block (env : PEnv) (st : RepoState) (user_id mission_id : String)
    (title : Option String := Option.none)
    (plan_note : Option String := Option.none)
    (scheduled_start : Option PyDateTime := Option.none)
    (planned_duration_minutes : Int := 25) : Block × RepoState :=
  let existing := blocksListForMission st mission_id Option.none
  let block : Block :=
    { id := new_id st.nextId
    , user_id := user_id, mission_id := mission_id
    , sequence_index := some (existing.length : Int)
    , scheduled_start := scheduled_start
    , planned_duration_minutes := some planned_duration_minutes
    , status := .planned, title := title, plan_note := plan_note }
  (block, blocksCreate { st with nextId := st.nextId + 1 } block)

/-- `TimelineTools.start_block`: mark in-progress, stamp `actual_start`. -/
def start_block (env : PEnv) (st : RepoState) (block_id : String) :
    Except String (Option Block × RepoState) :=
  match blocksGet st block_id with
  | Option.none => .ok (Option.none, st)
  | some block =>
    let updated :=
      { block with status := BlockStatus.in_progress,
                   actual_start := some env.now }
    (blocksUpdate st updated).map (fun st2 => (some updated, st2))

/-- `TimelineTools.get_today_blocks`. -/
def get_today_blocks (env : PEnv) (st : RepoState) (user_id : String) :
    List Block :=
  blocksListForUserDate st user_id env.today

/-- `TimelineTools.get_next_planned_block` (`if mission_id:` is Python
truthiness, so an empty-string id falls back to today's blocks). -/
def get_next_planned_block (env : PEnv) (st : RepoState) (user_id : String)
    (mission_id : Option String := Option.none) : Option Block :=
  let blocks :=
    match mission_id with
    | some m =>
      if m = "" then
        (get_today_blocks env st user_id).filter
          (fun b => b.status = BlockStatus.planned)
      else blocksListForMission st m (some .planned)
    | Option.none =>
      (get_today_blocks env st user_id).filter
        (fun b => b.status = BlockStatus.planned)
  if blocks = [] then Option.none
  else
    let blocks_with_schedule :=
      blocks.filter (fun b => b.scheduled_start ≠ Option.none)
    if blocks_with_schedule ≠ [] then
      pyMinBy (fun b => b.scheduled_start.getD dtMax) blocks_with_schedule
    else blocks.head?

/-- `MemoryTools.save_episode`; the pydantic `ge=1, le=5` bounds on the
scores make out-of-range values raise a validation error. -/
def save_episode (env : PEnv) (st : RepoState) (user_id : String)
    (kind : EpisodeKind) (summary : String)
    (mission_id : Option String := Option.none)
    (block_id : Option String := Option.none)
    (title : Option String := Option.none)
    (reflection : Option String := Option.none)
    (mood_before : Option EmotionLabel := Option.none)
    (mood_after : Option EmotionLabel := Option.none)
    (focus_score : Option Int := Option.none)
    (energy_score : Option Int := Option.none)
    (time_focused_minutes : Option Int := Option.none)
    (time_leaked_minutes : Option Int := Option.none)
    (leaks : Option (List LeakEvent) := Option.none)
    (tags : Option (List String) := Option.none) :
    Except PyErr (Episode × RepoState) :=
  let scoreOk := fun (s : Option Int) =>
    match s with
    | Option.none => true
    | some x => decide (1 ≤ x ∧ x ≤ 5)
  if scoreOk focus_score && scoreOk energy_score then
    let episode : Episode :=
      { id := new_id st.nextId
      , user_id := user_id, kind := kind, created_at := env.now
      , mission_id := mission_id, block_id := block_id, title := title
      , summary := summary, reflection := reflection
      , mood_before := mood_before, mood_after := mood_after
      , focus_score := focus_score, energy_score := energy_score
      , time_focused_minutes := time_focused_minutes
      , time_leaked_minutes := time_leaked_minutes
      , leaks := leaks.getD [], tags := tags.getD [] }
    let st1 := episodesCreate { st with nextId := st.nextId + 1 } episode
    .ok (episode, semanticAddEpisode st1 episode)
  else .error (.validationError "score out of range 1..5")

/-- `MemoryTools.get_episodes_for_period`. -/
def get_episodes_for_period (st : RepoState) (user_id : String)
    (start_date end_date : PyDate)
    (kind : Option EpisodeKind := Option.none) : List Episode :=
  episodesListForUser st user_id kind Option.none
    (some start_date) (some end_date)

/-- `MemoryTools.get_user_profile` (get or create). -/
def get_user_profile (env : PEnv) (st : RepoState) (user_id : String) :
    UserProfile × RepoState :=
  profilesGetOrCreate env st user_id

/-- `MemoryTools.update_user_stats`. -/
def update_user_stats (env : PEnv) (st : RepoState) (user_id : String)
    (blocks_completed_delta : Int := 0)
    (focused_minutes_delta : Int := 0)
    (missions_created_delta : Int := 0) : UserProfile × RepoState :=
  let pr := profilesGetOrCreate env st user_id
  let profile := pr.1
  let new_stats : UserStats :=
    { total_missions_created :=
        profile.stats.total_missions_created + missions_created_delta
    , total_blocks_completed :=
        profile.stats.total_blocks_completed + blocks_completed_delta
    , total_focused_minutes :=
        profile.stats.total_focused_minutes + focused_minutes_delta
    , avg_block_length_successful := profile.stats.avg_block_length_successful
    , avg_start_hour_successful := profile.stats.avg_start_hour_successful
    , night_sessions_failure_rate := profile.stats.night_sessions_failure_rate
    , morning_sessions_success_rate :=
        profile.stats.morning_sessions_success_rate }
  let updated :=
    { profile with stats := new_stats, updated_at := env.now }
  (updated, profilesUpdate pr.2 updated)

/-- The dict returned by `MemoryTools.compute_period_stats`; the
`completion_rate` key is only added later by the archivist. -/
structure PeriodStats where
  total_focused_minutes : Int := 0
  total_leaked_minutes : Int := 0
  blocks_completed : Int := 0
  avg_focus_score : ℚ := 0
  avg_energy_score : ℚ := 0
  completion_rate : Option ℚ := Option.none
deriving DecidableEq

/-- `MemoryTools.compute_period_stats`. The `if ep.field:` truthiness
guards skip `None` and `0`, which leaves every sum unchanged, so the
sums are folds of `getD 0`; scores equal to `0` are dropped from the
averaged lists exactly as the guard does. -/
def compute_period_stats (st : RepoState) (user_id : String)
    (start_date end_date : PyDate) : PeriodStats :=
  let episodes := get_episodes_for_period st user_id start_date end_date
  let focus_scores := episodes.filterMap
    (fun e => match e.focus_score with
      | some s => if s ≠ 0 then some s else Option.none
      | Option.none => Option.none)
  let energy_scores := episodes.filterMap
    (fun e => match e.energy_score with
      | some s => if s ≠ 0 then some s else Option.none
      | Option.none => Option.none)
  { total_focused_minutes :=
      episodes.foldl (fun acc e => acc + e.time_focused_minutes.getD 0) 0
  , total_leaked_minutes :=
      episodes.foldl (fun acc e => acc + e.time_leaked_minutes.getD 0) 0
  , blocks_completed :=
      (episodes.countP (fun e => e.kind = EpisodeKind.session) : Int)
  , avg_focus_score :=
      if focus_scores ≠ [] then
        (focus_scores.foldl (· + ·) 0 : ℚ) / (focus_scores.length : ℚ)
      else 0
  , avg_energy_score :=
      if energy_scores ≠ [] then
        (energy_scores.foldl (· + ·) 0 : ℚ) / (energy_scores.length : ℚ)
      else 0 }

/-! ## API request/response schemas (`schemas/api.py`) -/

/-- `PlanMissionRequest`. -/
structure PlanMissionRequest where
  raw_input : String
  kind : Option MissionKind := Option.none
  deadline : Option PyDate := Option.none
  estimated_hours : Option ℚ := Option.none
  constraints : Option MissionConstraints := Option.none
  preferences : Option MissionPreferences := Option.none
  surface : SurfaceType := .other
  graph_context : List String := []
deriving DecidableEq

/-- `ProposedBlock`. -/
structure ProposedBlock where
  title : String
  plan_note : Option String := Option.none
  suggested_date : Option PyDate := Option.none
  suggested_duration_minutes : Int := 25
  sequence_index : Int := 0
deriving DecidableEq

/-- `PlanMissionResponse`. -/
structure PlanMissionResponse where
  mission : Mission
  proposed_blocks : List ProposedBlock := []
  summary : String
  rationale : Option String := Option.none
  similar_missions_note : Option String := Option.none
  warnings : List String := []
  suggestions : List String := []
deriving DecidableEq

/-- `RunSessionRequest`. -/
structure RunSessionRequest where
  mission_id : Option String := Option.none
  block_id : Option String := Option.none
  available_minutes : Option Int := Option.none
  energy_level : Option EnergyLevel := Option.none
  mood_note : Option String := Option.none
  surface : SurfaceType := .focus_dock
  is_continuation : Bool := false
  adjustment_request : Option String := Option.none
deriving DecidableEq

/-- `SessionAction`. -/
structure SessionAction where
  description : String
  estimated_minutes : Option Int := Option.none
  is_stretch_goal : Bool := false
deriving DecidableEq

/-- `RunSessionResponse`. -/
structure RunSessionResponse where
  block : Block
  actions : List SessionAction := []
  brief : String
  recommended_duration_minutes : Int := 25
  break_after_minutes : Option Int := Option.none
  show_timer : Bool := true
  enable_leak_tracking : Bool := true
  warnings : List String := []
deriving DecidableEq

/-- `ReflectPeriodRequest` (the pydantic `ge=1, le=5` bounds mean any
constructed request has in-range scores; the fields stay plain here and
the bounds are re-checked where pydantic would re-validate). -/
structure ReflectPeriodRequest where
  kind : ReflectPeriodKind
  mission_id : Option String := Option.none
  block_id : Option String := Option.none
  start_date : Option PyDate := Option.none
  end_date : Option PyDate := Option.none
  user_reflection : Option String := Option.none
  focus_score : Option Int := Option.none
  energy_score : Option Int := Option.none
  surface : SurfaceType := .focus_dock
deriving DecidableEq

/-- `PatternInsight`. -/
structure PatternInsight where
  description : String
  confidence : ℚ
  supporting_data : Option String := Option.none
  suggested_action : Option String := Option.none
deriving DecidableEq

/-- `ReflectPeriodResponse`. -/
structure ReflectPeriodResponse where
  episode : Episode
  summary : String
  highlights : List String := []
  challenges : List String := []
  patterns : List PatternInsight := []
  total_focused_minutes : Int := 0
  total_leaked_minutes : Int := 0
  blocks_completed : Int := 0
  completion_rate : Option ℚ := Option.none
  updated_profile : Option UserProfile := Option.none
  suggestions : List String := []

/-! ## Planner graph (`graphs/planner_graph.py`) -/

/-- Python `int(q)`: truncation toward zero on the exact rational. -/
def pyTruncInt (q : ℚ) : Int := Int.tdiv q.num (q.den : Int)

/-- Stand-in rendering for Python number/date interpolation inside
strings no claim inspects (`str(x)`, `"{:.1f}".format`). -/
def pyShow (q : ℚ) : String := toString q.num ++ "/" ++ toString q.den

/-- The serialized `outputs["request"]` dict built by `run_planner`
(enums as `.value` strings, dates collapsed to their parsed value). -/
structure PlannerReqData where
  raw_input : String
  kind : Option String := Option.none
  deadline : Option PyDate := Option.none
  estimated_hours : Option ℚ := Option.none
  constraints : Option MissionConstraints := Option.none
  preferences : Option MissionPreferences := Option.none
deriving DecidableEq

/-- The `parsed_input` dict produced by `PlannerGraph._parse_input`
(`kind` is the string left by `request_data.get("kind") or OTHER`). -/
structure ParsedInput where
  title : String
  description : Option String := Option.none
  kind : String := "other"
  deadline : Option PyDate := Option.none
  estimated_hours : Option ℚ := Option.none
  constraints : Option MissionConstraints := Option.none
  preferences : Option MissionPreferences := Option.none
deriving DecidableEq

/-- The planner run's `outputs` keys, one field per dict key. -/
structure PlannerOutputs where
  request : PlannerReqData
  parsed_input : Option ParsedInput := Option.none
  similar_missions : List Mission := []
  history_note : Option String := Option.none
  mission : Option Mission := Option.none
  proposed_blocks : Option (List ProposedBlock) := Option.none
  summary : Option String := Option.none
  rationale : Option String := Option.none
  similar_missions_note : Option String := Option.none

/-- The planner's shared state slice (outputs, errors, scratchpad). -/
structure PlannerState where
  outputs : PlannerOutputs
  errors : List String := []
  scratchpad : String := ""

/-- `PlannerGraph._parse_input`. -/
def planner_parse_input (s : PlannerState) : PlannerState :=
  let rd := s.outputs.request
  let parsed : ParsedInput :=
    { title := rd.raw_input.take 100
    , description := some rd.raw_input
    , kind :=
        match rd.kind with
        | some k => if k = "" then "other" else k
        | Option.none => "other"
    , deadline := rd.deadline
    , estimated_hours := rd.estimated_hours
    , constraints := rd.constraints
    , preferences := rd.preferences }
  { s with
    outputs := { s.outputs with parsed_input := some parsed }
    scratchpad := s.scratchpad ++ "\nParsed input: " ++ parsed.title }

/-- `PlannerGraph._check_history` (an f-string renders a `None`
description as the text `None`). -/
def planner_check_history (st : RepoState) (user_id : String)
    (s : PlannerState) : PlannerState :=
  let query :=
    match s.outputs.parsed_input with
    | some p =>
      p.title ++ " " ++ (match p.description with
        | some d => d
        | Option.none => "None")
    | Option.none => " "
  let similar := find_similar_missions st user_id query 3
  let history_note :=
    if similar ≠ [] then
      let completed := similar.filter
        (fun m => m.status = MissionStatus.completed)
      if completed ≠ [] then
        some ("Found " ++ toString completed.length ++
          " similar completed missions. Consider what worked before.")
      else Option.none
    else Option.none
  { s with outputs :=
      { s.outputs with
        similar_missions := similar, history_note := history_note } }

/-- `PlannerGraph._build_mission` (the pydantic enum coercion of an
unknown kind string raises). -/
def planner_build_mission (env : PEnv) (st : RepoState) (user_id : String)
    (s : PlannerState) : Except PyErr (PlannerState × RepoState) :=
  let parsed := s.outputs.parsed_input
  let title := match parsed with
    | some p => p.title
    | Option.none => "Untitled"
  let description := match parsed with
    | some p => p.description
    | Option.none => Option.none
  let kindStr := match parsed with
    | some p => p.kind
    | Option.none => "other"
  let deadline_dt := match parsed with
    | some p => p.deadline.map (fun d => dtCombine d 0)
    | Option.none => Option.none
  let estimated_minutes := match parsed with
    | some p =>
      match p.estimated_hours with
      | some h => if h ≠ 0 then some (pyTruncInt (h * 60)) else Option.none
      | Option.none => Option.none
    | Option.none => Option.none
  match MissionKind.ofString? kindStr with
  | Option.none =>
    .error (.validationError
      ("input should be a valid MissionKind, got " ++ kindStr))
  | some kind =>
    let constraints := match parsed with
      | some p => p.constraints
      | Option.none => Option.none
    let preferences := match parsed with
      | some p => p.preferences
      | Option.none => Option.none
    let mr := create_mission env st user_id title description kind .medium
      deadline_dt Option.none estimated_minutes constraints preferences
      Option.none
    .ok ({ s with outputs := { s.outputs with mission := some mr.1 } }, mr.2)

/-- `PlannerGraph._propose_blocks` (`x or dflt` truthiness on the
duration; `sequence_index or 0` coincides with `getD 0`). -/
def planner_propose_blocks (env : PEnv) (st : RepoState)
    (s : PlannerState) : PlannerState × RepoState :=
  match s.outputs.mission with
  | Option.none =>
    ({ s with errors := s.errors ++ ["No mission created"] }, st)
  | some mission_data =>
    let pr := propose_blocks_for_mission env st mission_data.id
      Option.none 5
    let proposed_blocks := pr.1.map (fun b =>
      { title := b.title.getD ""
      , plan_note := b.plan_note
      , suggested_date := b.scheduled_start.map dtDate
      , suggested_duration_minutes :=
          match b.planned_duration_minutes with
          | some d => if d ≠ 0 then d else 25
          | Option.none => 25
      , sequence_index := b.sequence_index.getD 0 : ProposedBlock })
    ({ s with outputs :=
        { s.outputs with proposed_blocks := some proposed_blocks } }, pr.2)

/-- `PlannerGraph._summarize`. -/
def planner_summarize (s : PlannerState) : PlannerState :=
  let title := match s.outputs.mission with
    | some m => m.title
    | Option.none => "Untitled"
  let proposed := (s.outputs.proposed_blocks.getD [])
  let summary :=
    ("Created mission: " ++ title) ++
      (if proposed ≠ [] then
        " with " ++ toString proposed.length ++ " proposed sessions"
      else "")
  let rationale_parts :=
    (match s.outputs.mission with
     | some m =>
       match m.deadline_date with
       | some d => ["Deadline: " ++ toString d]
       | Option.none => []
     | Option.none => []) ++
    (match s.outputs.mission with
     | some m =>
       match m.estimated_total_minutes with
       | some mins =>
         if mins ≠ 0 then
           ["Estimated effort: " ++ pyShow ((mins : ℚ) / 60) ++ " hours"]
         else []
       | Option.none => []
     | Option.none => [])
  let rationale :=
    if rationale_parts ≠ [] then
      some (String.intercalate ". " rationale_parts)
    else Option.none
  { s with outputs :=
      { s.outputs with
        summary := some summary
      , rationale := rationale
      , similar_missions_note := s.outputs.history_note } }

/-- `run_planner`: build the initial state, run the five nodes in
order, assemble the response. -/
def run_planner (env : PEnv) (st : RepoState) (user_id : String)
    (request : PlanMissionRequest) :
    Except PyErr (PlanMissionResponse × RepoState) :=
  let rd : PlannerReqData :=
    { raw_input := request.raw_input
    , kind := request.kind.map (fun k => k.val)
    , deadline := request.deadline
    , estimated_hours := request.estimated_hours
    , constraints := request.constraints
    , preferences := request.preferences }
  let s0 : PlannerState := { outputs := { request := rd } }
  let s1 := planner_parse_input s0
  let s2 := planner_check_history st user_id s1
  (planner_build_mission env st user_id s2).map (fun br =>
    let pr := planner_propose_blocks env br.2 br.1
    let s5 := planner_summarize pr.1
    let mission := match s5.outputs.mission with
      | some m => m
      | Option.none =>
        { id := "", user_id := user_id, title := "Failed to create mission"
        , created_at := env.now, updated_at := env.now }
    let response : PlanMissionResponse :=
      { mission := mission
      , proposed_blocks := s5.outputs.proposed_blocks.getD []
      , summary := s5.outputs.summary.getD ""
      , rationale := s5.outputs.rationale
      , similar_missions_note := s5.outputs.similar_missions_note
      , warnings := s5.errors
      , suggestions := [] }
    (response, pr.2))

/-! ## Coach graph (`graphs/coach_graph.py`) -/

/-- The serialized `outputs["request"]` dict built by `run_coach`. -/
structure CoachReqData where
  mission_id : Option String := Option.none
  block_id : Option String := Option.none
  available_minutes : Option Int := Option.none
  energy_level : Option String := Option.none
  mood_note : Option String := Option.none
  is_continuation : Bool := false
deriving DecidableEq

/-- The `ui_state` dict written by `CoachGraph._start_session`. -/
structure CoachUIState where
  focus_mode_active : Bool
  timer_running : Bool
  timer_remaining_seconds : Int
deriving DecidableEq

/-- The coach run's `outputs` keys, one field per dict key. -/
structure CoachOutputs where
  request : CoachReqData
  mission : Option Mission := Option.none
  current_block : Option Block := Option.none
  today_blocks : List Block := []
  selected_block : Option Block := Option.none
  is_continuation : Option Bool := Option.none
  brief : Option String := Option.none
  actions : Option (List SessionAction) := Option.none
  recommended_duration : Option Int := Option.none
  ui_state : Option CoachUIState := Option.none

/-- The coach's shared state slice. -/
structure CoachState where
  outputs : CoachOutputs
  errors : List String := []

/-- `str | None` truthiness (`if x:`): present and non-empty. -/
def strTruthy : Option String → Bool
  | some s => s ≠ ""
  | Option.none => false

/-- `CoachGraph._load_context`. -/
def coach_load_context (env : PEnv) (st : RepoState) (user_id : String)
    (s : CoachState) : CoachState :=
  let rd := s.outputs.request
  let mission :=
    if strTruthy rd.mission_id then get_mission st (rd.mission_id.getD "")
    else get_active_mission st user_id
  let block :=
    if strTruthy rd.block_id then blocksGet st (rd.block_id.getD "")
    else get_current_block st user_id
  let today_blocks := get_today_blocks env st user_id
  { s with outputs :=
      { s.outputs with
        mission := mission, current_block := block
      , today_blocks := today_blocks } }

/-- The part of `CoachGraph._decide_block` after the in-progress
shortcut: explicit block request, next planned block, block creation,
or the "No mission or block available" error. -/
def coach_decide_block_rest (env : PEnv) (st : RepoState)
    (user_id : String) (s : CoachState) (rd : CoachReqData)
    (mission_data : Option Mission) : CoachState × RepoState :=
  let requested :=
    if strTruthy rd.block_id then blocksGet st (rd.block_id.getD "")
    else Option.none
  match requested with
  | some b =>
    ({ s with outputs :=
        { s.outputs with
          selected_block := some b, is_continuation := some false } }, st)
  | Option.none =>
    let mission_id := mission_data.map (fun m => m.id)
    let next_block := get_next_planned_block env st user_id mission_id
    match next_block with
    | some nb =>
      ({ s with outputs :=
          { s.outputs with
            selected_block := some nb
          , is_continuation := some false } }, st)
    | Option.none =>
      if strTruthy mission_id then
        let duration :=
          match rd.available_minutes with
          | some v => if v ≠ 0 then v else 25
          | Option.none => 25
        let br := create_block env st user_id (mission_id.getD "")
          Option.none Option.none Option.none duration
        ({ s with outputs :=
            { s.outputs with
              selected_block := some br.1
            , is_continuation := some false } }, br.2)
      else
        ({ s with errors :=
            s.errors ++ ["No mission or block available"] }, st)

/-- `CoachGraph._decide_block`. -/
def coach_decide_block (env : PEnv) (st : RepoState) (user_id : String)
    (s : CoachState) : CoachState × RepoState :=
  let rd := s.outputs.request
  let current_block := s.outputs.current_block
  let mission_data := s.outputs.mission
  match current_block with
  | some cb =>
    if cb.status = BlockStatus.in_progress then
      ({ s with outputs :=
          { s.outputs with
            selected_block := some cb, is_continuation := some true } }, st)
    else coach_decide_block_rest env st user_id s rd mission_data
  | Option.none => coach_decide_block_rest env st user_id s rd mission_data

/-- `CoachGraph._generate_brief`; comparing a `None` duration with 40
raises a `TypeError` in Python, modelled as the error case. -/
def coach_generate_brief (s : CoachState) : Except PyErr CoachState :=
  match s.outputs.selected_block with
  | Option.none =>
    .ok { s with outputs :=
        { s.outputs with
          brief :=
            some "Let\x27s get you started. What would you like to work on?"
        , actions := some [] } }
  | some block_data =>
    let mission_title := match s.outputs.mission with
      | some m => m.title
      | Option.none => "your work"
    let block_title := match block_data.title with
      | some t => t
      | Option.none => "None"
    let duration := block_data.planned_duration_minutes
    let durationStr := match duration with
      | some d => toString d
      | Option.none => "None"
    let is_continuation := s.outputs.is_continuation.getD false
    let brief :=
      if is_continuation then
        "Continuing your session on " ++ mission_title ++
          ". You\x27ve got this."
      else
        ("Let\x27s do a " ++ durationStr ++ "-minute block on " ++
            mission_title ++ ".") ++
          (if strTruthy block_data.plan_note then
            " Focus: " ++ block_data.plan_note.getD ""
          else "")
    let actions :=
      if strTruthy block_data.plan_note then
        [({ description := block_data.plan_note.getD ""
          , estimated_minutes := duration } : SessionAction)]
      else
        [({ description := "Work on " ++ block_title
          , estimated_minutes := duration } : SessionAction)]
    match duration with
    | Option.none =>
      .error (.valueError
        "TypeError: not supported between instances of NoneType and int")
    | some d =>
      let actions2 :=
        if d ≥ 40 then
          actions ++
            [({ description := "Review what you completed"
              , estimated_minutes := some 5
              , is_stretch_goal := true } : SessionAction)]
        else actions
      .ok { s with outputs :=
          { s.outputs with
            brief := some brief, actions := some actions2
          , recommended_duration := some d } }

/-- `CoachGraph._start_session`. -/
def coach_start_session (env : PEnv) (st : RepoState) (s : CoachState) :
    Except PyErr (CoachState × RepoState) :=
  match s.outputs.selected_block with
  | Option.none => .ok (s, st)
  | some block_data =>
    let startedR : Except PyErr (CoachState × RepoState) :=
      if block_data.status ≠ BlockStatus.in_progress then
        match start_block env st block_data.id with
        | .error e => .error (PyErr.valueError e)
        | .ok (Option.none, st2) => .ok (s, st2)
        | .ok (some b, st2) =>
          .ok ({ s with outputs :=
              { s.outputs with selected_block := some b } }, st2)
      else .ok (s, st)
    startedR.map (fun p =>
      let duration := p.1.outputs.recommended_duration.getD 25
      let ui : CoachUIState :=
        { focus_mode_active := true, timer_running := true
        , timer_remaining_seconds := duration * 60 }
      ({ p.1 with outputs := { p.1.outputs with ui_state := some ui } },
        p.2))

/-- `run_coach`: initial state, the four nodes in order, response
assembly with the placeholder block fallback. -/
def run_coach (env : PEnv) (st : RepoState) (user_id : String)
    (request : RunSessionRequest) :
    Except PyErr (RunSessionResponse × RepoState) :=
  let rd : CoachReqData :=
    { mission_id := request.mission_id
    , block_id := request.block_id
    , available_minutes := request.available_minutes
    , energy_level := request.energy_level.map (fun e => e.val)
    , mood_note := request.mood_note
    , is_continuation := request.is_continuation }
  let s0 : CoachState := { outputs := { request := rd } }
  let s1 := coach_load_context env st user_id s0
  let dr := coach_decide_block env st user_id s1
  (coach_generate_brief dr.1).bind (fun s3 =>
    (coach_start_session env dr.2 s3).map (fun fr =>
      let s4 := fr.1
      let st4 := fr.2
      match s4.outputs.selected_block with
      | some block =>
        (({ block := block
          , actions := s4.outputs.actions.getD []
          , brief := s4.outputs.brief.getD "Ready to focus?"
          , recommended_duration_minutes :=
              s4.outputs.recommended_duration.getD 25
          , show_timer := true, enable_leak_tracking := true
          , warnings := s4.errors } : RunSessionResponse), st4)
      | Option.none =>
        let block : Block :=
          { id := new_id st4.nextId, user_id := user_id, mission_id := ""
          , status := BlockStatus.planned }
        (({ block := block
          , actions := s4.outputs.actions.getD []
          , brief := s4.outputs.brief.getD "Ready to focus?"
          , recommended_duration_minutes :=
              s4.outputs.recommended_duration.getD 25
          , show_timer := true, enable_leak_tracking := true
          , warnings := s4.errors } : RunSessionResponse),
          { st4 with nextId := st4.nextId + 1 })))

/-! ## Archivist graph (`graphs/archivist_graph.py`) -/

/-- The serialized `outputs["request"]` dict built by `run_archivist`. -/
structure ArchReqData where
  kind : String
  mission_id : Option String := Option.none
  block_id : Option String := Option.none
  start_date : Option PyDate := Option.none
  end_date : Option PyDate := Option.none
  user_reflection : Option String := Option.none
  focus_score : Option Int := Option.none
  energy_score : Option Int := Option.none
deriving DecidableEq

/-- The `period` dict written by `_load_period_data`. -/
structure PeriodInfo where
  kind : String
  start_date : PyDate
  end_date : PyDate
deriving DecidableEq

/-- The archivist run's `outputs` keys, one field per dict key. -/
structure ArchOutputs where
  request : ArchReqData
  period : Option PeriodInfo := Option.none
  block : Option Block := Option.none
  mission : Option Mission := Option.none
  period_episodes : List Episode := []
  profile : Option UserProfile := Option.none
  stats : Option PeriodStats := Option.none
  patterns : List PatternInsight := []
  highlights : List String := []
  challenges : List String := []
  episode : Option Episode := Option.none
  updated_profile : Option UserProfile := Option.none
  final_summary : Option String := Option.none
  suggestions : List String := []

/-- The archivist's shared state slice. -/
structure ArchState where
  outputs : ArchOutputs
  errors : List String := []

/-- `ArchivistGraph._load_period_data`. -/
def arch_load_period_data (env : PEnv) (st : RepoState)
    (user_id : String) (s : ArchState) :
    Except PyErr (ArchState × RepoState) :=
  let rd := s.outputs.request
  match ReflectPeriodKind.ofString? rd.kind with
  | Option.none =>
    .error (.valueError
      ("\x27" ++ rd.kind ++ "\x27 is not a valid ReflectPeriodKind"))
  | some kind =>
    let end_date0 := env.today
    let start_date0 :=
      match kind with
      | .block => end_date0
      | .day => end_date0
      | .week => end_date0 - 7
      | .mission => end_date0 - 30
    let start_date := rd.start_date.getD start_date0
    let end_date := rd.end_date.getD end_date0
    let block_data :=
      if strTruthy rd.block_id then blocksGet st (rd.block_id.getD "")
      else Option.none
    let mission_data :=
      if strTruthy rd.mission_id then get_mission st (rd.mission_id.getD "")
      else Option.none
    let episodes := get_episodes_for_period st user_id start_date end_date
    let pr := profilesGetOrCreate env st user_id
    .ok ({ s with outputs :=
        { s.outputs with
          period := some
            { kind := kind.val
            , start_date := start_date, end_date := end_date }
        , block := block_data, mission := mission_data
        , period_episodes := episodes
        , profile := some pr.1 } }, pr.2)

/-- `ArchivistGraph._compute_stats` (a missing `period` key would be a
`KeyError`, kept as the error case). -/
def arch_compute_stats (st : RepoState) (user_id : String)
    (s : ArchState) : Except PyErr ArchState :=
  match s.outputs.period with
  | Option.none => .error (.valueError "KeyError: start_date")
  | some period =>
    let stats0 :=
      compute_period_stats st user_id period.start_date period.end_date
    let rate := min 1 ((stats0.blocks_completed : ℚ) / 5)
    let stats :=
      if stats0.blocks_completed > 0 then
        { stats0 with completion_rate := some rate }
      else stats0
    .ok { s with outputs := { s.outputs with stats := some stats } }

/-- `ArchivistGraph._identify_patterns`. -/
def arch_identify_patterns (s : ArchState) : ArchState :=
  let stats := s.outputs.stats.getD {}
  let focused := stats.total_focused_minutes
  let leaked := stats.total_leaked_minutes
  let blocks := stats.blocks_completed
  let highlights :=
    (if blocks > 0 then
      ["Completed " ++ toString blocks ++ " focus blocks"] else []) ++
    (if focused > 60 then
      ["Total focus time: " ++ toString focused ++ " minutes"] else [])
  let challenges :=
    if leaked > 30 then ["Leak time: " ++ toString leaked ++ " minutes"]
    else []
  let avg_focus := stats.avg_focus_score
  let focusPatterns : List PatternInsight :=
    if avg_focus ≥ 4 then
      [{ description := "Your focus has been strong this period"
       , confidence := 7/10
       , supporting_data :=
           some ("Average focus score: " ++ pyShow avg_focus ++ "/5") }]
    else if avg_focus > 0 ∧ avg_focus < 3 then
      [{ description :=
           "Focus has been challenging - consider shorter blocks"
       , confidence := 6/10
       , suggested_action :=
           some "Try 25-minute blocks instead of longer ones" }]
    else []
  let avg_energy := stats.avg_energy_score
  let energyPatterns : List PatternInsight :=
    if avg_energy > 0 ∧ avg_energy < 3 then
      [{ description := "Energy levels have been lower than usual"
       , confidence := 5/10
       , suggested_action := some "Consider rest or lighter sessions" }]
    else []
  { s with outputs :=
      { s.outputs with
        patterns := focusPatterns ++ energyPatterns
      , highlights := highlights, challenges := challenges } }

/-- `ArchivistGraph._write_episode`: `EpisodeKind(kind_str)` raises for
the period kinds `block` and `week`. -/
def arch_write_episode (env : PEnv) (st : RepoState) (user_id : String)
    (s : ArchState) : Except PyErr (ArchState × RepoState) :=
  let rd := s.outputs.request
  let kind_str := match s.outputs.period with
    | some p => p.kind
    | Option.none => "session"
  match EpisodeKind.ofString? kind_str with
  | Option.none =>
    .error (.valueError
      ("\x27" ++ kind_str ++ "\x27 is not a valid EpisodeKind"))
  | some kind =>
    let stats := s.outputs.stats.getD {}
    let summary_parts :=
      (if stats.blocks_completed > 0 then
        ["Completed " ++ toString stats.blocks_completed ++ " blocks"]
      else []) ++
      (if stats.total_focused_minutes > 0 then
        [toString stats.total_focused_minutes ++ " minutes focused"]
      else [])
    let summary :=
      if summary_parts ≠ [] then String.intercalate ". " summary_parts
      else "Reflection recorded"
    let tags :=
      [kind_str] ++
        (if strTruthy rd.user_reflection then ["has_reflection"] else [])
    (save_episode env st user_id kind summary
        rd.mission_id rd.block_id Option.none rd.user_reflection
        Option.none Option.none rd.focus_score rd.energy_score
        (s.outputs.stats.map (fun x => x.total_focused_minutes))
        (s.outputs.stats.map (fun x => x.total_leaked_minutes))
        Option.none (some tags)).map (fun er =>
      ({ s with outputs := { s.outputs with episode := some er.1 } }, er.2))

/-- `ArchivistGraph._update_profile`. -/
def arch_update_profile (env : PEnv) (st : RepoState) (user_id : String)
    (s : ArchState) : ArchState × RepoState :=
  let stats := s.outputs.stats.getD {}
  let ur := update_user_stats env st user_id
    stats.blocks_completed stats.total_focused_minutes 0
  ({ s with outputs := { s.outputs with updated_profile := some ur.1 } },
    ur.2)

/-- `ArchivistGraph._build_summary`. -/
def arch_build_summary (s : ArchState) : ArchState :=
  let highlights := s.outputs.highlights
  let challenges := s.outputs.challenges
  let summary_parts :=
    (if highlights ≠ [] then
      ["Highlights: " ++ String.intercalate ", " highlights] else []) ++
    (if challenges ≠ [] then
      ["Challenges: " ++ String.intercalate ", " challenges] else [])
  let summary :=
    if summary_parts ≠ [] then String.intercalate ". " summary_parts
    else "Reflection complete."
  let suggestions := s.outputs.patterns.filterMap (fun p =>
    match p.suggested_action with
    | some a => if a ≠ "" then some a else Option.none
    | Option.none => Option.none)
  { s with outputs :=
      { s.outputs with
        final_summary := some summary, suggestions := suggestions } }

/-- `run_archivist`: initial state, the six nodes in order, response
assembly (the fallback `Episode(kind=request.kind)` re-runs the enum
coercion). -/
def run_archivist (env : PEnv) (st : RepoState) (user_id : String)
    (request : ReflectPeriodRequest) :
    Except PyErr (ReflectPeriodResponse × RepoState) :=
  let rd : ArchReqData :=
    { kind := request.kind.val
    , mission_id := request.mission_id
    , block_id := request.block_id
    , start_date := request.start_date
    , end_date := request.end_date
    , user_reflection := request.user_reflection
    , focus_score := request.focus_score
    , energy_score := request.energy_score }
  let s0 : ArchState := { outputs := { request := rd } }
  (arch_load_period_data env st user_id s0).bind (fun lr =>
    (arch_compute_stats lr.2 user_id lr.1).bind (fun s2 =>
      let s3 := arch_identify_patterns s2
      (arch_write_episode env lr.2 user_id s3).bind (fun wr =>
        let ur := arch_update_profile env wr.2 user_id wr.1
        let s6 := arch_build_summary ur.1
        let st6 := ur.2
        let stats := s6.outputs.stats.getD {}
        let episodeE : Except PyErr Episode :=
          match s6.outputs.episode with
          | some e => .ok e
          | Option.none =>
            match EpisodeKind.ofString? request.kind.val with
            | some k =>
              .ok { id := "", user_id := user_id, kind := k
                  , created_at := env.now, summary := "Reflection recorded" }
            | Option.none =>
              .error (.validationError
                ("input should be a valid EpisodeKind, got " ++
                  request.kind.val))
        episodeE.map (fun episode =>
          (({ episode := episode
            , summary := s6.outputs.final_summary.getD ""
            , highlights := s6.outputs.highlights
            , challenges := s6.outputs.challenges
            , patterns := s6.outputs.patterns
            , total_focused_minutes := stats.total_focused_minutes
            , total_leaked_minutes := stats.total_leaked_minutes
            , blocks_completed := stats.blocks_completed
            , completion_rate := stats.completion_rate
            , updated_profile := s6.outputs.updated_profile
            , suggestions := s6.outputs.suggestions } :
              ReflectPeriodResponse), st6)))))

/-! ## Graph router (`graphs/router.py`) -/

/-- The dynamically typed `request` argument of `call_graph`
(`foreign` stands for any other Python object, carrying the name
`type(request).__name__` would report). -/
inductive AnyRequest where
  | plan (r : PlanMissionRequest)
  | session (r : RunSessionRequest)
  | reflect (r : ReflectPeriodRequest)
  | chat (message : String)
  | foreign (type_name : String)

/-- `type(request).__name__`. -/
def AnyRequest.type_name : AnyRequest → String
  | .plan _ => "PlanMissionRequest"
  | .session _ => "RunSessionRequest"
  | .reflect _ => "ReflectPeriodRequest"
  | .chat _ => "ChatRequest"
  | .foreign n => n

/-- The response side of the router's generic dispatch. -/
inductive AnyResponse where
  | plan (r : PlanMissionResponse)
  | session (r : RunSessionResponse)
  | reflect (r : ReflectPeriodResponse)

/-- `ErrorCode.VALIDATION_ERROR.value`. -/
def validationErrorCode : String := "validation_error"

/-- `GraphRouter.call_graph`. The entry point is its `.value` string
(a `str` enum compares equal to it), so unknown strings exercise the
final `else`. -/
def call_graph (env : PEnv) (st : RepoState) (entrypoint : String)
    (user_id : String) (request : AnyRequest) :
    Except PyErr (AnyResponse × RepoState) :=
  if entrypoint = "plan_mission" then
    match request with
    | .plan r =>
      (run_planner env st user_id r).map (fun p => (.plan p.1, p.2))
    | _ =>
      .error (.serviceError validationErrorCode
        ("Expected PlanMissionRequest, got " ++ request.type_name))
  else if entrypoint = "run_session" then
    match request with
    | .session r =>
      (run_coach env st user_id r).map (fun p => (.session p.1, p.2))
    | _ =>
      .error (.serviceError validationErrorCode
        ("Expected RunSessionRequest, got " ++ request.type_name))
  else if entrypoint = "reflect_period" then
    match request with
    | .reflect r =>
      (run_archivist env st user_id r).map (fun p => (.reflect p.1, p.2))
    | _ =>
      .error (.serviceError validationErrorCode
        ("Expected ReflectPeriodRequest, got " ++ request.type_name))
  else if entrypoint = "chat" then
    .error (.serviceError validationErrorCode
      "Chat should be handled by GlyphAgentService, not the router")
  else
    .error (.serviceError validationErrorCode
      ("Unknown entrypoint: " ++ entrypoint))

/-! ## Claim theorems -/

@[simp]
theorem pyGet_nil (k : String) : pyGet [] k = Option.none := rfl

@[simp]
theorem pyGet_cons (p : String × PyVal) (d : List (String × PyVal))
    (k : String) :
    pyGet (p :: d) k = if p.1 = k then some p.2 else pyGet d k := by
  by_cases h : p.1 = k <;> simp [pyGet, List.find?, h]

@[simp]
theorem asOptStr_optStrVal (o : Option String) :
    asOptStr (some (optStrVal o)) = some o := by
  cases o <;> rfl

@[simp]
theorem decodeStrList_map_str (l : List String) :
    decodeStrList (l.map PyVal.str) = some l := by
  induction l with
  | nil => rfl
  | cons a t ih => simp [decodeStrList, ih]

@[simp]
theorem GlyphMode.ofString?_val (m : GlyphMode) :
    GlyphMode.ofString? m.val = some m := by
  cases m <;> rfl

/-- C2: converting a shared workflow state with `state_to_dict` and back
with `dict_to_state` restores every declared field (context fields,
mode, messages, scratchpad, outputs, errors, timestamps), and
`dict_to_state` ignores any key outside the declared set. -/
theorem c2_state_roundtrip_and_unknown_keys
    (now : PyDateTime) (s : GlyphState) (k : String) (v : PyVal)
    (data : List (String × PyVal)) (hk : k ∉ stateDictKeys) :
    dict_to_state now (state_to_dict s) = some s ∧
    dict_to_state now ((k, v) :: data) = dict_to_state now data := by
  constructor
  · obtain ⟨⟨uid, sid, mid, bid, surf, uname, tz, gid, fni⟩,
      mode, msgs, pad, outs, errs, t1, t2⟩ := s
    simp [dict_to_state, state_to_dict, decodeContext, getStrD, getOptStr,
      getListD, getDictD, getStrListD, getDtD, asStrD, asListD, asDictD,
      asStrListD, asDtD]
  · simp only [stateDictKeys, List.mem_cons, List.mem_singleton] at hk
    push_neg at hk
    obtain ⟨h1, h2, h3, h4, h5, h6, h7, h8, _⟩ := hk
    simp [dict_to_state, getStrD, getOptStr, getListD, getDictD,
      getStrListD, getDtD, h1, h2, h3, h4, h5, h6, h7, h8]

/-- A concrete shared state exercising every field, with the claim's
`outputs = {"x": 1}` example. -/
def c2ExampleState : GlyphState :=
  { context :=
      { user_id := "u1", session_id := some "s1", mission_id := some "m1"
      , block_id := Option.none, surface := "focus_dock"
      , user_name := some "Ada", timezone := "US/Pacific"
      , graph_id := some "g1", focus_node_ids := ["n1", "n2"] }
  , mode := .planner
  , messages := [.dict [("role", .str "user"), ("content", .str "hi")]]
  , scratchpad := "notes"
  , outputs := [("x", .int 1)]
  , errors := ["warn"]
  , started_at := 1064523000, updated_at := 1064523100 }

/-- Witness for C2 at a fully populated state and the fresh key `zzz`. -/
theorem c2_state_roundtrip_witness :
    "zzz" ∉ stateDictKeys ∧
    (dict_to_state 7 (state_to_dict c2ExampleState) = some c2ExampleState ∧
      dict_to_state 7 (("zzz", PyVal.int 9) ::
          [("outputs", PyVal.dict [("x", PyVal.int 1)])]) =
        dict_to_state 7 [("outputs", PyVal.dict [("x", PyVal.int 1)])]) :=
  ⟨by decide, c2_state_roundtrip_and_unknown_keys 7 c2ExampleState "zzz"
    (PyVal.int 9) [("outputs", PyVal.dict [("x", PyVal.int 1)])] (by decide)⟩

/-- A fixed clock: minute 600 of proleptic day 739252 (a Wednesday). -/
def envC : PEnv := { now := 739252 * 1440 + 600 }

set_option maxRecDepth 8000 in
/-- C9: the end-to-end planner scenario: raw input
`organic chem final monday, cs project wednesday` with no kind,
deadline, constraints or preferences yields a mission titled with the
(under-100-character, hence untruncated) raw input, kind `other`, and
exactly five proposed blocks with sequence indices 0..4 and 25-minute
durations. -/
theorem c9_planner_scenario :
    ((run_planner envC {} "u1"
        { raw_input := "organic chem final monday, cs project wednesday" }
      ).toOption.map (fun p =>
        (p.1.mission.title, p.1.mission.kind, p.1.mission.id != "",
          p.1.proposed_blocks.map (fun b => b.sequence_index),
          p.1.proposed_blocks.map (fun b => b.suggested_duration_minutes)))) =
      some ("organic chem final monday, cs project wednesday",
        MissionKind.other, true, ([0, 1, 2, 3, 4] : List Int),
        ([25, 25, 25, 25, 25] : List Int)) ∧
    "organic chem final monday, cs project wednesday" =
      String.take "organic chem final monday, cs project wednesday" 100 := by
  refine ⟨rfl, by decide⟩

set_option maxRecDepth 8000 in
/-- C1 (code bug): `run_archivist` raises `ValueError` for the request
kinds `block` and `week` (`EpisodeKind(kind_str)` rejects them), and
only the kinds `day` and `mission` return a response. -/
theorem c1_reflect_kind_crash :
    run_archivist envC {} "u1" { kind := ReflectPeriodKind.block } =
      .error (.valueError "\x27block\x27 is not a valid EpisodeKind") ∧
    run_archivist envC {} "u1" { kind := ReflectPeriodKind.week } =
      .error (.valueError "\x27week\x27 is not a valid EpisodeKind") ∧
    (run_archivist envC {} "u1" { kind := ReflectPeriodKind.day }).isOk =
      true ∧
    (run_archivist envC {} "u1" { kind := ReflectPeriodKind.mission }).isOk =
      true := by
  refine ⟨rfl, rfl, rfl, rfl⟩

set_option maxRecDepth 8000 in
/-- C8 counterexample: an archivist day-run over an empty store reports
`blocks_completed = 0` with `completion_rate = None`, not the claimed
`min(1.0, 0/5) = 0.0`. -/
theorem c8_completion_rate_counterexample :
    ((run_archivist envC {} "u1" { kind := ReflectPeriodKind.day }
      ).toOption.map (fun p =>
        (p.1.blocks_completed, p.1.completion_rate))) =
      some (0, Option.none) ∧
    (Option.none : Option ℚ) ≠ some (min 1 ((0 : ℚ) / 5)) := by
  refine ⟨rfl, by decide⟩

/-- C7: the router's generic dispatch: on each entry point a matching
request is passed through to exactly the corresponding graph runner;
a mismatching request fails with a validation error naming the expected
and actual types; the `chat` entry point and unrecognized entry point
values fail with validation errors. -/
theorem c7_router_dispatch (env : PEnv) (st : RepoState) (uid : String) :
    (∀ r, call_graph env st "plan_mission" uid (.plan r) =
      (run_planner env st uid r).map
        (fun p => (AnyResponse.plan p.1, p.2))) ∧
    (∀ req, (∀ r, req ≠ .plan r) →
      call_graph env st "plan_mission" uid req =
        .error (.serviceError validationErrorCode
          ("Expected PlanMissionRequest, got " ++ req.type_name))) ∧
    (∀ r, call_graph env st "run_session" uid (.session r) =
      (run_coach env st uid r).map
        (fun p => (AnyResponse.session p.1, p.2))) ∧
    (∀ req, (∀ r, req ≠ .session r) →
      call_graph env st "run_session" uid req =
        .error (.serviceError validationErrorCode
          ("Expected RunSessionRequest, got " ++ req.type_name))) ∧
    (∀ r, call_graph env st "reflect_period" uid (.reflect r) =
      (run_archivist env st uid r).map
        (fun p => (AnyResponse.reflect p.1, p.2))) ∧
    (∀ req, (∀ r, req ≠ .reflect r) →
      call_graph env st "reflect_period" uid req =
        .error (.serviceError validationErrorCode
          ("Expected ReflectPeriodRequest, got " ++ req.type_name))) ∧
    (∀ req, call_graph env st "chat" uid req =
      .error (.serviceError validationErrorCode
        "Chat should be handled by GlyphAgentService, not the router")) ∧
    (∀ ep req,
      ep ∉ ["plan_mission", "run_session", "reflect_period", "chat"] →
      call_graph env st ep uid req =
        .error (.serviceError validationErrorCode
          ("Unknown entrypoint: " ++ ep))) := by
  refine ⟨fun r => rfl, fun req h => ?_, fun r => rfl, fun req h => ?_,
    fun r => rfl, fun req h => ?_, fun req => ?_, fun ep req h => ?_⟩
  · cases req with
    | plan r => exact absurd rfl (h r)
    | _ => rfl
  · cases req with
    | session r => exact absurd rfl (h r)
    | _ => rfl
  · cases req with
    | reflect r => exact absurd rfl (h r)
    | _ => rfl
  · rfl
  · simp only [List.mem_cons, List.mem_singleton] at h
    push_neg at h
    obtain ⟨h1, h2, h3, h4⟩ := h
    simp [call_graph, h1, h2, h3, h4]

/-- Witness for C7: an unrecognized entry point string fails with a
validation error, exercised through the dispatch theorem. -/
theorem c7_router_dispatch_witness :
    call_graph envC {} "bogus" "u1" (.chat "hello") =
      .error (.serviceError "validation_error" "Unknown entrypoint: bogus") := by
  have h := (c7_router_dispatch envC {} "u1").2.2.2.2.2.2.2 "bogus"
    (.chat "hello") (by decide)
  simpa [validationErrorCode] using h

/-- Invariant of the `propose_blocks_for_mission` loop: the proposed
blocks' scheduled starts are exactly 9am on the candidate days
`start, start+1, ...` that survive the days-off skip, in order. -/
theorem c4_fold_sched (mission : Mission) (mid : String) (duration : Int)
    (start : PyDate) : ∀ (num n0 : Nat),
    ((List.range num).foldl (propose_step mission mid duration start)
        ([], n0)).1.map (fun b => b.scheduled_start) =
      (((List.range num).map (fun i => start + i)).filter
          (fun d => !(decide (mission.constraints.days_off ≠ [] ∧
            pyWeekday d ∈ mission.constraints.days_off)))).map
        (fun d => some (dtCombine d 9)) := by
  intro num n0
  induction num with
  | zero => rfl
  | succ n ih =>
    rw [List.range_succ, List.foldl_append, List.map_append,
      List.filter_append]
    by_cases h : mission.constraints.days_off ≠ [] ∧
        pyWeekday (start + n) ∈ mission.constraints.days_off
    · simp only [List.foldl_cons, List.foldl_nil, propose_step, if_pos h,
        List.map_cons, List.map_nil, List.filter_cons, decide_eq_true h,
        Bool.not_true]
      simpa using ih
    · simp only [List.foldl_cons, List.foldl_nil, propose_step, if_neg h,
        List.map_cons, List.map_nil, List.filter_cons,
        decide_eq_false h, Bool.not_false]
      simp [ih]

/-- Invariant of the `propose_blocks_for_mission` loop: every proposed
block carries the resolved duration. -/
theorem c4_fold_dur (mission : Mission) (mid : String) (duration : Int)
    (start : PyDate) : ∀ (num n0 : Nat),
    ∀ b ∈ ((List.range num).foldl
        (propose_step mission mid duration start) ([], n0)).1,
      b.planned_duration_minutes = some duration := by
  intro num n0
  induction num with
  | zero => intro b hb; simp at hb
  | succ n ih =>
    rw [List.range_succ, List.foldl_append]
    intro b hb
    by_cases h : mission.constraints.days_off ≠ [] ∧
        pyWeekday (start + n) ∈ mission.constraints.days_off
    · simp only [List.foldl_cons, List.foldl_nil, propose_step,
        if_pos h] at hb
      exact ih b hb
    · simp only [List.foldl_cons, List.foldl_nil, propose_step,
        if_neg h, List.mem_append, List.mem_singleton] at hb
      rcases hb with hb | hb
      · exact ih b hb
      · rw [hb]

/-- A 9am datetime falls on its own calendar day. -/
theorem dtDate_dtCombine9 (d : PyDate) : dtDate (dtCombine d 9) = d := by
  simp only [dtDate, dtCombine]
  rw [Nat.mul_comm, Nat.mul_add_div (by norm_num)]
  norm_num

/-- C4: for a resolvable mission, block proposal returns at most the
requested number of blocks; the scheduled starts are 9am on the
candidate days (one calendar day apart) that do not fall on a weekday
in the mission constraints' days-off; no proposed block's day has a
weekday in days-off; and every block's duration is the mission's first
preferred block length, or 25 when no preference is set. -/
theorem c4_propose_blocks_spec (env : PEnv) (st : RepoState)
    (mission_id : String) (mission : Mission)
    (start_date : Option PyDate) (num_blocks : Nat)
    (h : missionsGet st mission_id = some mission) :
    (propose_blocks_for_mission env st mission_id start_date
        num_blocks 25).1.length ≤ num_blocks ∧
    (propose_blocks_for_mission env st mission_id start_date
        num_blocks 25).1.map (fun b => b.scheduled_start) =
      (((List.range num_blocks).map
          (fun i => start_date.getD env.today + i)).filter
        (fun d => decide
          (pyWeekday d ∉ mission.constraints.days_off))).map
        (fun d => some (dtCombine d 9)) ∧
    (∀ b ∈ (propose_blocks_for_mission env st mission_id start_date
        num_blocks 25).1, ∀ w ∈ mission.constraints.days_off,
      pyWeekday (dtDate (b.scheduled_start.getD 0)) ≠ w) ∧
    (∀ b ∈ (propose_blocks_for_mission env st mission_id start_date
        num_blocks 25).1,
      b.planned_duration_minutes =
        some (match mission.preferences.preferred_block_lengths with
          | some (d :: _) => d
          | _ => 25)) := by
  have hunfold : (propose_blocks_for_mission env st mission_id start_date
      num_blocks 25).1 =
      ((List.range num_blocks).foldl
        (propose_step mission mission_id
          (match mission.preferences.preferred_block_lengths with
            | some (d :: _) => d
            | _ => 25)
          (start_date.getD env.today)) ([], st.nextId)).1 := by
    simp only [propose_blocks_for_mission, h]
  have hfc :
      (((List.range num_blocks).map
          (fun i => start_date.getD env.today + i)).filter
        (fun d => !(decide (mission.constraints.days_off ≠ [] ∧
          pyWeekday d ∈ mission.constraints.days_off)))) =
      (((List.range num_blocks).map
          (fun i => start_date.getD env.today + i)).filter
        (fun d => decide
          (pyWeekday d ∉ mission.constraints.days_off))) := by
    refine List.filter_congr (fun d _ => ?_)
    by_cases hm : pyWeekday d ∈ mission.constraints.days_off
    · have hne : mission.constraints.days_off ≠ [] := by
        intro he
        rw [he] at hm
        simp at hm
      simp [hm, hne]
    · simp [hm]
  have hsched := c4_fold_sched mission mission_id
    (match mission.preferences.preferred_block_lengths with
      | some (d :: _) => d
      | _ => 25)
    (start_date.getD env.today) num_blocks st.nextId
  rw [hfc] at hsched
  refine ⟨?_, ?_, ?_, ?_⟩
  · have hlen := congrArg List.length (hunfold ▸ hsched)
    simp only [List.length_map] at hlen
    calc (propose_blocks_for_mission env st mission_id start_date
        num_blocks 25).1.length = _ := hlen
      _ ≤ ((List.range num_blocks).map
          (fun i => start_date.getD env.today + i)).length :=
        List.length_filter_le _ _
      _ = num_blocks := by simp
  · rw [hunfold]
    exact hsched
  · intro b hb w hw
    have hmem : b.scheduled_start ∈
        ((propose_blocks_for_mission env st mission_id start_date
          num_blocks 25).1.map (fun x => x.scheduled_start)) :=
      List.mem_map_of_mem _ hb
    rw [hunfold, hsched] at hmem
    obtain ⟨d, hd, hds⟩ := List.mem_map.mp hmem
    have hdkeep := (List.mem_filter.mp hd).2
    have hdnot : pyWeekday d ∉ mission.constraints.days_off :=
      of_decide_eq_true hdkeep
    have : b.scheduled_start.getD 0 = dtCombine d 9 := by
      rw [← hds]
      rfl
    rw [this, dtDate_dtCombine9]
    intro he
    exact hdnot (he ▸ hw)
  · intro b hb
    rw [hunfold] at hb
    exact c4_fold_dur mission mission_id _ _ num_blocks st.nextId b hb

/-- Mission constraints with Saturday and Sunday off. -/
def c4Constraints : MissionConstraints := { days_off := [5, 6] }

/-- A mission for the C4 witness. -/
def c4Mission : Mission :=
  { id := "m3", user_id := "u1", title := "M3"
  , created_at := 1, updated_at := 1, constraints := c4Constraints }

/-- A repository holding only `c4Mission`. -/
def c4Repo : RepoState := { missions := [c4Mission] }

/-- Witness for C4 on a mission with weekend days-off, five requested
blocks starting on a Wednesday. -/
theorem c4_propose_blocks_witness :
    missionsGet c4Repo "m3" = some c4Mission ∧
    ((propose_blocks_for_mission envC c4Repo "m3" (some 739252)
        5 25).1.length ≤ 5 ∧
      (∀ b ∈ (propose_blocks_for_mission envC c4Repo "m3" (some 739252)
          5 25).1, ∀ w ∈ c4Mission.constraints.days_off,
        pyWeekday (dtDate (b.scheduled_start.getD 0)) ≠ w)) :=
  ⟨rfl,
    (c4_propose_blocks_spec envC c4Repo "m3" c4Mission (some 739252)
      5 rfl).1,
    (c4_propose_blocks_spec envC c4Repo "m3" c4Mission (some 739252)
      5 rfl).2.2.1⟩

/-- The claim's notion of an episode in range: the user's episodes whose
creation date lies between the period bounds. -/
def inPeriod (user_id : String) (start_date end_date : PyDate)
    (e : Episode) : Bool :=
  decide (e.user_id = user_id) &&
    decide (start_date ≤ dtDate e.created_at) &&
    decide (dtDate e.created_at ≤ end_date)

/-- The loaded period episodes are the 50 most recent (stable
descending sort by creation time) of the user's in-range episodes. -/
theorem c5_episodes_eq (st : RepoState) (uid : String) (s e : PyDate) :
    get_episodes_for_period st uid s e =
      ((st.episodes.filter (inPeriod uid s e)).insertionSort
        (fun a b => b.created_at ≤ a.created_at)).take 50 := by
  simp only [get_episodes_for_period, episodesListForUser]
  rw [List.filter_filter, List.filter_filter]
  congr 2
  apply List.filter_congr
  intro ep _
  by_cases h1 : ep.user_id = uid <;>
    by_cases h2 : s ≤ dtDate ep.created_at <;>
    by_cases h3 : dtDate ep.created_at ≤ e <;>
    simp [inPeriod, h1, h2, h3]

/-- The accumulating loop of `compute_period_stats` is a sum. -/
theorem foldl_add_map (f : Episode → Int) : ∀ (l : List Episode)
    (init : Int),
    l.foldl (fun acc ep => acc + f ep) init = init + (l.map f).sum := by
  intro l
  induction l with
  | nil => intro init; simp
  | cons a t ih =>
    intro init
    simp only [List.foldl_cons, List.map_cons, List.sum_cons, ih,
      add_assoc]

/-- C5 (amended): whenever at most 50 episodes fall in range (the
repository's default query limit), the period stats count an episode
toward `blocks_completed` exactly when its kind is `session`, and
`total_focused_minutes` is the sum of the in-range episodes'
`time_focused_minutes` (absent values contributing 0). -/
theorem c5_period_stats (st : RepoState) (uid : String) (s e : PyDate)
    (h : (st.episodes.filter (inPeriod uid s e)).length ≤ 50) :
    (compute_period_stats st uid s e).blocks_completed =
      ((st.episodes.filter (inPeriod uid s e)).countP
        (fun ep => ep.kind = EpisodeKind.session) : Int) ∧
    (compute_period_stats st uid s e).total_focused_minutes =
      ((st.episodes.filter (inPeriod uid s e)).map
        (fun ep => ep.time_focused_minutes.getD 0)).sum := by
  have hperm : ((st.episodes.filter (inPeriod uid s e)).insertionSort
      (fun a b => b.created_at ≤ a.created_at)).Perm
      (st.episodes.filter (inPeriod uid s e)) :=
    List.perm_insertionSort _ _
  have htake : ((st.episodes.filter (inPeriod uid s e)).insertionSort
      (fun a b => b.created_at ≤ a.created_at)).take 50 =
      (st.episodes.filter (inPeriod uid s e)).insertionSort
        (fun a b => b.created_at ≤ a.created_at) :=
    List.take_of_length_le (by rw [hperm.length_eq]; exact h)
  have he : get_episodes_for_period st uid s e =
      (st.episodes.filter (inPeriod uid s e)).insertionSort
        (fun a b => b.created_at ≤ a.created_at) := by
    rw [c5_episodes_eq, htake]
  constructor
  · simp only [compute_period_stats, he]
    exact_mod_cast hperm.countP_eq
      (fun ep => decide (ep.kind = EpisodeKind.session))
  · simp only [compute_period_stats, he]
    rw [foldl_add_map (fun ep => ep.time_focused_minutes.getD 0)]
    rw [(hperm.map (fun ep => ep.time_focused_minutes.getD 0)).sum_eq]
    simp

/-- 51 same-day `session` episodes of one focused minute each. -/
def c5ManyEpisodes : List Episode := (List.range 51).map (fun i =>
  { id := "e" ++ toString i, user_id := "u1", kind := .session
  , created_at := 739252 * 1440 + i, summary := "s"
  , time_focused_minutes := some 1 })

/-- A repository exceeding the 50-episode query limit for one day. -/
def c5BigRepo : RepoState := { episodes := c5ManyEpisodes }

set_option maxRecDepth 16000 in
/-- C5 counterexample: with 51 in-range episodes the in-range sums are
51, but `compute_period_stats` reports 50 of each — the repository's
default `limit=50` drops an episode, refuting the claim as stated. -/
theorem c5_limit_counterexample :
    ((c5BigRepo.episodes.filter (inPeriod "u1" 739252 739252)).map
      (fun ep => ep.time_focused_minutes.getD 0)).sum = 51 ∧
    ((c5BigRepo.episodes.filter (inPeriod "u1" 739252 739252)).countP
      (fun ep => ep.kind = EpisodeKind.session)) = 51 ∧
    (compute_period_stats c5BigRepo "u1" 739252
      739252).total_focused_minutes = 50 ∧
    (compute_period_stats c5BigRepo "u1" 739252
      739252).blocks_completed = 50 := by
  refine ⟨by decide, by decide, by decide, by decide⟩

/-- The claim's scenario episode of kind `session` with 30 minutes. -/
def c5SessionEpisode : Episode :=
  { id := "e1", user_id := "u1", kind := .session
  , created_at := 739252 * 1440 + 60, summary := "s"
  , time_focused_minutes := some 30 }

/-- The claim's scenario episode of kind `day`. -/
def c5DayEpisode : Episode :=
  { id := "e2", user_id := "u1", kind := .day
  , created_at := 739252 * 1440 + 70, summary := "d" }

/-- The claim's two-episode scenario repository. -/
def c5TwoRepo : RepoState :=
  { episodes := [c5SessionEpisode, c5DayEpisode] }

/-- Witness for C5 on the claim's two-episode scenario: stats report
`total_focused_minutes = 30` and `blocks_completed = 1`. -/
theorem c5_period_stats_witness :
    (c5TwoRepo.episodes.filter (inPeriod "u1" 739252 739252)).length ≤
      50 ∧
    (compute_period_stats c5TwoRepo "u1" 739252 739252).blocks_completed
      = 1 ∧
    (compute_period_stats c5TwoRepo "u1" 739252
      739252).total_focused_minutes = 30 := by
  have h := c5_period_stats c5TwoRepo "u1" 739252 739252 (by decide)
  refine ⟨by decide, ?_, ?_⟩
  · rw [h.1]; decide
  · rw [h.2]; decide

/-- Inversion for a successful `Except.map`. -/
theorem exceptMap_ok {ε α β : Type} (x : Except ε α) (f : α → β) (b : β)
    (h : x.map f = .ok b) : ∃ a, x = .ok a ∧ f a = b := by
  cases x with
  | error e => simp [Except.map] at h
  | ok a => exact ⟨a, rfl, by simpa [Except.map] using h⟩

/-- Inversion for a successful `Except.bind`. -/
theorem exceptBind_ok {ε α β : Type} (x : Except ε α)
    (f : α → Except ε β) (b : β) (h : x.bind f = .ok b) :
    ∃ a, x = .ok a ∧ f a = .ok b := by
  cases x with
  | error e => simp [Except.bind] at h
  | ok a => exact ⟨a, rfl, by simpa [Except.bind] using h⟩

/-- A successful `_compute_stats` stores a stats dict whose
`completion_rate` is `min(1, blocks_completed/5)` when any block was
completed and is absent otherwise. -/
theorem arch_compute_stats_ok (st : RepoState) (uid : String)
    (s s2 : ArchState) (h : arch_compute_stats st uid s = .ok s2) :
    ∃ stats, s2.outputs.stats = some stats ∧
      stats.completion_rate =
        (if stats.blocks_completed > 0 then
          some (min 1 ((stats.blocks_completed : ℚ) / 5))
        else Option.none) := by
  unfold arch_compute_stats at h
  cases hp : s.outputs.period with
  | none => rw [hp] at h; simp at h
  | some period =>
    rw [hp] at h
    simp only [Except.ok.injEq] at h
    subst h
    refine ⟨_, rfl, ?_⟩
    by_cases hbc : (compute_period_stats st uid period.start_date
        period.end_date).blocks_completed > 0
    · simp [hbc]
    · simp only [if_neg hbc]
      have hnone : (compute_period_stats st uid period.start_date
          period.end_date).completion_rate = Option.none := rfl
      simp [hbc, hnone]

/-- `_identify_patterns` leaves the stats output untouched. -/
theorem arch_identify_patterns_stats (s : ArchState) :
    (arch_identify_patterns s).outputs.stats = s.outputs.stats := rfl

/-- A successful `_write_episode` leaves the stats output untouched and
stores an episode. -/
theorem arch_write_episode_ok (env : PEnv) (st : RepoState)
    (uid : String) (s : ArchState) (wr : ArchState × RepoState)
    (h : arch_write_episode env st uid s = .ok wr) :
    wr.1.outputs.stats = s.outputs.stats ∧
    (∃ e, wr.1.outputs.episode = some e) := by
  simp only [arch_write_episode] at h
  cases hk : EpisodeKind.ofString?
      (match s.outputs.period with
        | some p => p.kind
        | Option.none => "session") with
  | none => rw [hk] at h; simp at h
  | some k =>
    rw [hk] at h
    obtain ⟨er, _, hwr⟩ := exceptMap_ok _ _ _ h
    subst hwr
    exact ⟨rfl, ⟨er.1, rfl⟩⟩

/-- C8 (amended): every archivist run that returns a response reports
`completion_rate = min(1.0, blocks_completed / 5)` when
`blocks_completed > 0`, and no completion rate (`None`) when
`blocks_completed = 0` — the claim's formula only holds for nonzero
completed-block counts. -/
theorem c8_completion_rate (env : PEnv) (st : RepoState) (uid : String)
    (req : ReflectPeriodRequest) (resp : ReflectPeriodResponse)
    (st' : RepoState) (h : run_archivist env st uid req = .ok (resp, st')) :
    resp.completion_rate =
      (if resp.blocks_completed > 0 then
        some (min 1 ((resp.blocks_completed : ℚ) / 5))
      else Option.none) := by
  simp only [run_archivist] at h
  obtain ⟨lr, hload, h⟩ := exceptBind_ok _ _ _ h
  obtain ⟨s2, hcs, h⟩ := exceptBind_ok _ _ _ h
  obtain ⟨wr, hwe, h⟩ := exceptBind_ok _ _ _ h
  obtain ⟨ep, hepE, hresp⟩ := exceptMap_ok _ _ _ h
  obtain ⟨stats, hstats, hgood⟩ := arch_compute_stats_ok _ _ _ _ hcs
  obtain ⟨hwstats, -⟩ := arch_write_episode_ok _ _ _ _ _ hwe
  have hwr1 : wr.1.outputs.stats = some stats := by
    rw [hwstats, arch_identify_patterns_stats, hstats]
  have hs6 : (arch_build_summary
      (arch_update_profile env wr.2 uid wr.1).1).outputs.stats =
      wr.1.outputs.stats := rfl
  have hcr := congrArg (fun p => p.1.completion_rate) hresp
  have hbc := congrArg (fun p => p.1.blocks_completed) hresp
  simp only [] at hcr hbc
  rw [← hcr, ← hbc, hs6, hwr1]
  simpa using hgood

/-- Witness for C8 on the two-episode scenario repository: one
completed block yields `completion_rate = 1/5`. -/
theorem c8_completion_rate_witness :
    ((run_archivist envC c5TwoRepo "u1" { kind := ReflectPeriodKind.day }
      ).toOption.map (fun p => p.1.completion_rate)) =
      some (some (1/5 : ℚ)) := by
  cases hrun : run_archivist envC c5TwoRepo "u1"
      { kind := ReflectPeriodKind.day } with
  | error e =>
    have hok : (run_archivist envC c5TwoRepo "u1"
        { kind := ReflectPeriodKind.day }).isOk = true := rfl
    rw [hrun] at hok
    simp [Except.isOk, Except.toBool] at hok
  | ok p =>
    have hcr := c8_completion_rate envC c5TwoRepo "u1"
      { kind := ReflectPeriodKind.day } p.1 p.2 (by rw [hrun])
    have h3 : (some 1 : Option Int) = some p.1.blocks_completed := by
      calc (some 1 : Option Int) =
          (run_archivist envC c5TwoRepo "u1"
            { kind := ReflectPeriodKind.day }).toOption.map
            (fun q => q.1.blocks_completed) := by rfl
        _ = some p.1.blocks_completed := by rw [hrun]; rfl
    have hb : p.1.blocks_completed = 1 := by
      injection h3 with h3'
      exact h3'.symm
    show some p.1.completion_rate = some (some (1/5 : ℚ))
    rw [hcr, hb]
    norm_num

/-- Without a mission scope, no planned block among today's blocks
means no next planned block. -/
theorem next_planned_none (env : PEnv) (st : RepoState) (uid : String)
    (ht : ∀ b ∈ get_today_blocks env st uid,
      b.status ≠ BlockStatus.planned) :
    get_next_planned_block env st uid Option.none = Option.none := by
  unfold get_next_planned_block
  have hfilter : (get_today_blocks env st uid).filter
      (fun b => b.status = BlockStatus.planned) = [] := by
    apply List.filter_eq_nil_iff.mpr
    intro b hb
    simpa using ht b hb
  simp [hfilter]

/-- C3 (amended): for a user with no active mission, no in-progress
block, and no planned block scheduled today, a session request without
mission or block ids returns the "No mission or block available"
warning and a placeholder block with status `planned` and an empty
mission id. -/
theorem c3_no_context (env : PEnv) (st : RepoState) (uid : String)
    (req : RunSessionRequest)
    (hm : req.mission_id = Option.none) (hb : req.block_id = Option.none)
    (ha : get_active_mission st uid = Option.none)
    (hc : get_current_block st uid = Option.none)
    (ht : ∀ b ∈ get_today_blocks env st uid,
      b.status ≠ BlockStatus.planned) :
    run_coach env st uid req = .ok
      ({ block := { id := new_id st.nextId, user_id := uid
                  , mission_id := "", status := BlockStatus.planned }
       , actions := []
       , brief := "Let\x27s get you started. What would you like to work on?"
       , recommended_duration_minutes := 25
       , show_timer := true, enable_leak_tracking := true
       , warnings := ["No mission or block available"] },
       { st with nextId := st.nextId + 1 }) := by
  have hnext := next_planned_none env st uid ht
  simp [run_coach, coach_load_context, coach_decide_block,
    coach_decide_block_rest, coach_generate_brief, coach_start_session,
    hm, hb, ha, hc, hnext, strTruthy, Except.bind, Except.map]

/-- A paused mission (so the user has no active mission). -/
def c3Mission : Mission :=
  { id := "m2", user_id := "u1", title := "Paused mission"
  , status := .paused, created_at := 100, updated_at := 100 }

/-- A planned block scheduled today under the paused mission. -/
def c3Block : Block :=
  { id := "b2", user_id := "u1", mission_id := "m2"
  , status := .planned, scheduled_start := some (dtCombine 739252 10)
  , planned_duration_minutes := some 30 }

/-- The C3 counterexample repository. -/
def c3Repo : RepoState := { missions := [c3Mission], blocks := [c3Block] }

set_option maxRecDepth 8000 in
/-- C3 counterexample: a user with no active mission and no
in-progress block but a planned block today gets that block (started),
with empty warnings — not the claimed warning plus placeholder. -/
theorem c3_counterexample :
    get_active_mission c3Repo "u1" = Option.none ∧
    get_current_block c3Repo "u1" = Option.none ∧
    ((run_coach envC c3Repo "u1" {}).toOption.map
      (fun p => (p.1.warnings, p.1.block.status, p.1.block.id))) =
      some ([], BlockStatus.in_progress, "b2") := ⟨rfl, rfl, rfl⟩

/-- Witness for C3 (amended) on an empty repository. -/
theorem c3_no_context_witness :
    get_active_mission ({} : RepoState) "u1" = Option.none ∧
    run_coach envC {} "u1" {} = .ok
      ({ block := { id := new_id 0, user_id := "u1"
                  , mission_id := "", status := BlockStatus.planned }
       , actions := []
       , brief := "Let\x27s get you started. What would you like to work on?"
       , recommended_duration_minutes := 25
       , show_timer := true, enable_leak_tracking := true
       , warnings := ["No mission or block available"] },
       ({ nextId := 1 } : RepoState)) :=
  ⟨rfl, c3_no_context envC {} "u1" {} rfl rfl rfl rfl (by decide)⟩

/-- Updating a block that a `get` just returned succeeds. -/
theorem blocksUpdate_of_get (st : RepoState) (bid : String) (b u : Block)
    (hb : blocksGet st bid = some b) (hid : u.id = b.id) :
    blocksUpdate st u =
      .ok { st with blocks := upsertBy (fun x => x.id) u st.blocks } := by
  unfold blocksUpdate
  have hmem : b ∈ st.blocks := List.mem_of_find?_eq_some hb
  have hpred : b.id = bid := by
    have := List.find?_some hb
    exact of_decide_eq_true this
  have hany : st.blocks.any (fun x => x.id = u.id) = true :=
    List.any_eq_true.mpr ⟨b, hmem, by simp [hid]⟩
  simp [hany]

/-- C10 (amended): a request whose block id resolves to a block that is
not in progress and has a planned duration selects it regardless of its
prior status and returns it in progress with `actual_start` freshly
stamped to the clock. -/
theorem c10_requested_block_started (env : PEnv) (st : RepoState)
    (uid : String) (req : RunSessionRequest) (bid : String) (b : Block)
    (d : Int)
    (hreq : req.block_id = some bid) (hbid : bid ≠ "")
    (hb : blocksGet st bid = some b)
    (hst : b.status ≠ BlockStatus.in_progress)
    (hd : b.planned_duration_minutes = some d) :
    ∃ resp st', run_coach env st uid req = .ok (resp, st') ∧
      resp.block.id = b.id ∧
      resp.block.status = BlockStatus.in_progress ∧
      resp.block.actual_start = some env.now := by
  have hbid2 : b.id = bid := by
    have := List.find?_some hb
    exact of_decide_eq_true this
  have hget2 : blocksGet st b.id = some b := by rw [hbid2]; exact hb
  have hupd := blocksUpdate_of_get st b.id b
    { b with status := BlockStatus.in_progress,
             actual_start := some env.now } hget2 rfl
  simp only [hd] at hupd
  simp [run_coach, coach_load_context, coach_decide_block,
    coach_decide_block_rest, coach_generate_brief, coach_start_session,
    start_block, hreq, hbid, hb, hst, hd, hget2, hupd, strTruthy,
    Except.bind, Except.map]

/-- A completed block without a planned duration. -/
def c10NoDurBlock : Block :=
  { id := "b4", user_id := "u1", mission_id := "m1"
  , status := .completed }

/-- The C10 counterexample repository. -/
def c10NoDurRepo : RepoState := { blocks := [c10NoDurBlock] }

set_option maxRecDepth 8000 in
/-- C10 counterexample: resuming a resolvable non-in-progress block
with no planned duration crashes in `_generate_brief` (Python
`None >= 40` raises `TypeError`), so no response is returned. -/
theorem c10_counterexample :
    blocksGet c10NoDurRepo "b4" = some c10NoDurBlock ∧
    c10NoDurBlock.status ≠ BlockStatus.in_progress ∧
    run_coach envC c10NoDurRepo "u1" { block_id := some "b4" } =
      .error (.valueError
        "TypeError: not supported between instances of NoneType and int") :=
  ⟨rfl, by decide, rfl⟩

/-- A completed block with a planned duration. -/
def c10DoneBlock : Block :=
  { id := "b3", user_id := "u1", mission_id := "m1"
  , status := .completed, planned_duration_minutes := some 30 }

/-- The C10 witness repository. -/
def c10DoneRepo : RepoState := { blocks := [c10DoneBlock] }

/-- Witness for C10 (amended) on a completed 30-minute block. -/
theorem c10_requested_block_started_witness :
    blocksGet c10DoneRepo "b3" = some c10DoneBlock ∧
    c10DoneBlock.status ≠ BlockStatus.in_progress ∧
    (∃ resp st', run_coach envC c10DoneRepo "u1"
        { block_id := some "b3" } = .ok (resp, st') ∧
      resp.block.id = c10DoneBlock.id ∧
      resp.block.status = BlockStatus.in_progress ∧
      resp.block.actual_start = some envC.now) :=
  ⟨rfl, by decide,
    c10_requested_block_started envC c10DoneRepo "u1"
      { block_id := some "b3" } "b3" c10DoneBlock 30 rfl (by decide)
      rfl (by decide) rfl⟩

/-- Lookup after the replace-in-place branch of an upsert. -/
theorem find?_map_upsert (b : Block) : ∀ l : List Block,
    l.any (fun x => x.id = b.id) = true →
    (l.map (fun x => if x.id = b.id then b else x)).find?
      (fun x => x.id = b.id) = some b := by
  intro l
  induction l with
  | nil => intro h; simp at h
  | cons a t ih =>
    intro h
    by_cases ha : a.id = b.id
    · simp [List.find?, ha]
    · simp only [List.any_cons, Bool.or_eq_true, decide_eq_true_eq] at h
      rcases h with h | h
      · exact absurd h ha
      · simp only [List.map_cons, if_neg ha, List.find?]
        rw [decide_eq_false ha]
        exact ih h

/-- Lookup after the append branch of an upsert. -/
theorem find?_append_upsert (b : Block) : ∀ l : List Block,
    l.any (fun x => x.id = b.id) = false →
    (l ++ [b]).find? (fun x => x.id = b.id) = some b := by
  intro l
  induction l with
  | nil => simp [List.find?]
  | cons a t ih =>
    intro h
    simp only [List.any_cons, Bool.or_eq_false_iff, decide_eq_false_iff_not] at h
    simp only [List.cons_append, List.find?, decide_eq_false h.1]
    exact ih (by simpa using h.2)

/-- A freshly created block is retrievable under its id. -/
theorem blocksGet_create (st : RepoState) (b : Block) :
    blocksGet (blocksCreate st b) b.id = some b := by
  unfold blocksGet blocksCreate upsertBy
  by_cases h : st.blocks.any (fun x => x.id = b.id)
  · simp only [if_pos h]
    exact find?_map_upsert b st.blocks h
  · simp only [if_neg h]
    exact find?_append_upsert b st.blocks (by simpa using h)

/-- A mission with no blocks lists none. -/
theorem blocksListForMission_empty (st : RepoState) (mid : String)
    (status : Option BlockStatus) (limit : Nat)
    (h : ∀ b ∈ st.blocks, b.mission_id ≠ mid) :
    blocksListForMission st mid status limit = [] := by
  unfold blocksListForMission
  have hfilter : st.blocks.filter
      (fun b => decide (b.mission_id = mid ∧
        (status = Option.none ∨ status = some b.status))) = [] := by
    apply List.filter_eq_nil_iff.mpr
    intro b hb
    simp [h b hb]
  rw [hfilter]
  simp

/-- Lookup of the upserted element always succeeds. -/
theorem find?_upsertBy_self (b : Block) (l : List Block) :
    (upsertBy (fun x => x.id) b l).find? (fun x => x.id = b.id) =
      some b := by
  unfold upsertBy
  by_cases h : l.any (fun x => x.id = b.id)
  · simp only [if_pos h]
    exact find?_map_upsert b l h
  · simp only [if_neg h]
    exact find?_append_upsert b l (by simpa using h)

/-- The upserted element is in the store. -/
theorem mem_upsertBy_self (b : Block) (l : List Block) :
    b ∈ upsertBy (fun x => x.id) b l :=
  List.mem_of_find?_eq_some (find?_upsertBy_self b l)

/-- Starting a freshly created block marks it in progress and stamps
its actual start. -/
theorem start_block_create (env : PEnv) (st : RepoState) (b : Block)
    (i : String) (hi : i = b.id) :
    start_block env (blocksCreate st b) i =
      .ok (some { b with status := BlockStatus.in_progress,
                          actual_start := some env.now },
        { blocksCreate st b with
            blocks := upsertBy (fun x => x.id)
              { b with status := BlockStatus.in_progress,
                       actual_start := some env.now }
              (blocksCreate st b).blocks }) := by
  subst hi
  have hupd := blocksUpdate_of_get (blocksCreate st b) b.id b
    { b with status := BlockStatus.in_progress,
             actual_start := some env.now } (blocksGet_create st b) rfl
  unfold start_block
  rw [blocksGet_create]
  simp only [hupd, Except.map]

/-- C6 (amended): a session request carrying a mission id that resolves
to a mission with no blocks and `available_minutes = 45`, with no block
id and no in-progress block for the user, creates and persists a new
45-minute block (not the 25-minute default) and the response includes
the 5-minute stretch-goal action since 45 >= 40. -/
theorem c6_new_block_45 (env : PEnv) (st : RepoState) (uid : String)
    (req : RunSessionRequest) (mid : String) (mission : Mission)
    (hreq_m : req.mission_id = some mid)
    (hreq_b : req.block_id = Option.none)
    (hreq_av : req.available_minutes = some 45)
    (hmid : mid ≠ "")
    (hm : missionsGet st mid = some mission)
    (hnoblocks : ∀ b ∈ st.blocks, b.mission_id ≠ mid)
    (hcur : get_current_block st uid = Option.none) :
    ∃ resp st', run_coach env st uid req = .ok (resp, st') ∧
      resp.block.planned_duration_minutes = some 45 ∧
      resp.block.status = BlockStatus.in_progress ∧
      ({ description := "Review what you completed"
       , estimated_minutes := some 5
       , is_stretch_goal := true } : SessionAction) ∈ resp.actions ∧
      (∃ nb ∈ st'.blocks, nb.id = new_id st.nextId ∧
        nb.planned_duration_minutes = some 45) := by
  have hmid2 : mission.id = mid := by
    have := List.find?_some hm
    exact of_decide_eq_true this
  have hplanned : blocksListForMission st mid (some .planned) 100 = [] :=
    blocksListForMission_empty st mid _ _ hnoblocks
  have hall : blocksListForMission st mid Option.none 100 = [] :=
    blocksListForMission_empty st mid _ _ hnoblocks
  simp [run_coach, coach_load_context, coach_decide_block,
    coach_decide_block_rest, coach_generate_brief, coach_start_session,
    create_block, get_next_planned_block, get_mission, hreq_m, hreq_b,
    hreq_av, hmid, hm, hcur, hmid2, hplanned, hall, strTruthy,
    Except.bind, Except.map, start_block_create, mem_upsertBy_self]
  refine ⟨_, _, ⟨rfl, rfl⟩, rfl, rfl, by simp, ⟨_, mem_upsertBy_self _ _, rfl, rfl⟩⟩

/-- An active mission with no blocks. -/
def c6Mission : Mission :=
  { id := "m1", user_id := "u1", title := "Mission T"
  , created_at := 100, updated_at := 100 }

/-- An in-progress block belonging to a different mission. -/
def c6OtherBlock : Block :=
  { id := "bx", user_id := "u1", mission_id := "m9"
  , status := .in_progress, planned_duration_minutes := some 25
  , actual_start := some 5 }

/-- The C6 counterexample repository. -/
def c6CexRepo : RepoState :=
  { missions := [c6Mission], blocks := [c6OtherBlock] }

set_option maxRecDepth 8000 in
/-- C6 counterexample: with an in-progress block elsewhere, the coach
continues it — no 45-minute block is created or persisted and no
stretch action is returned, refuting the claim as stated. -/
theorem c6_counterexample :
    missionsGet c6CexRepo "m1" = some c6Mission ∧
    (∀ b ∈ c6CexRepo.blocks, b.mission_id ≠ "m1") ∧
    ((run_coach envC c6CexRepo "u1"
        { mission_id := some "m1", available_minutes := some 45 }
      ).toOption.map (fun p =>
        (p.1.block.id, p.1.block.planned_duration_minutes,
          p.1.actions.map (fun a => a.is_stretch_goal),
          p.2.blocks.map (fun b => b.planned_duration_minutes)))) =
      some ("bx", some 25, [false], [some 25]) :=
  ⟨rfl, by decide, rfl⟩

/-- The C6 witness repository: just the block-less mission. -/
def c6GoodRepo : RepoState := { missions := [c6Mission] }

/-- Witness for C6 (amended) on the block-less mission. -/
theorem c6_new_block_45_witness :
    missionsGet c6GoodRepo "m1" = some c6Mission ∧
    get_current_block c6GoodRepo "u1" = Option.none ∧
    (∃ resp st', run_coach envC c6GoodRepo "u1"
        { mission_id := some "m1", available_minutes := some 45 } =
        .ok (resp, st') ∧
      resp.block.planned_duration_minutes = some 45 ∧
      resp.block.status = BlockStatus.in_progress ∧
      ({ description := "Review what you completed"
       , estimated_minutes := some 5
       , is_stretch_goal := true } : SessionAction) ∈ resp.actions ∧
      (∃ nb ∈ st'.blocks, nb.id = new_id 0 ∧
        nb.planned_duration_minutes = some 45)) :=
  ⟨rfl, rfl,
    c6_new_block_45 envC c6GoodRepo "u1"
      { mission_id := some "m1", available_minutes := some 45 }
      "m1" c6Mission rfl rfl rfl (by decide) rfl (by decide) rfl⟩
